import Mathlib

/-!
# Verification of the ledger / balance-reconciliation core

A shallow embedding of the balance engine of a collateral-backed lending
platform (`backend/services/balance_service.py`, `backend/db/account.py`,
`backend/db/transaction.py`, `backend/db/collateral.py`,
`backend/routes/transactions.py`, `backend/routes/collaterals.py`).

Modelling conventions:
* Python `Decimal` amounts are modelled as `Rat` (exact arithmetic, as the
  code relies on; float conversions at the DB boundary are identity here).
* Transaction uuids are abstracted as consecutive naturals handed out by
  `DBState.nextTxnId`; `reference_number` stores strings as in the source
  (a mirrored transaction stores the decimal rendering of the original id).
* The relational store is a `DBState` record of lists; SQL `UPDATE ... WHERE
  id = x` becomes a `List.map` that rewrites every row whose key matches,
  `SELECT ... WHERE` becomes `List.find?`.
* `async` functions are pure state transformers `DBState → DBState × α`;
  a Python `raise ValueError`/`Exception` becomes an `Except` error result,
  paired with the state at the moment of the raise (mutations committed
  before the raise persist, as they do against a database).
* Timestamps (`created_at`, `processed_at`, ...), descriptions and metadata
  dictionaries are not read by any of the verified control flow and are
  omitted from the record types.
-/

deriving instance DecidableEq for Except

namespace CV

attribute [local semireducible] Rat.add Rat.sub

/-- `TransactionType` from `dataModels/transaction.py`. -/
inductive TransactionType where
  | deposit
  | withdrawal
  | interest
  | loan_disbursement
  | payment
  | fee
deriving DecidableEq, Repr

/-- `TransactionStatus` from `dataModels/transaction.py`. -/
inductive TransactionStatus where
  | pending
  | completed
  | failed
  | cancelled
  | reversed
deriving DecidableEq, Repr

/-- `CollateralStatus` from `dataModels/collateral.py`. -/
inductive CollateralStatus where
  | pending
  | approved
  | rejected
  | released
  | defaulted
deriving DecidableEq, Repr

/-- An account row (`dataModels/account.py` / `accounts` table): the fields
read or written by the verified code paths. -/
structure Account where
  id : String
  user_id : String
  account_number : String
  loan_balance : Rat
  investment_balance : Rat
deriving DecidableEq, Repr

/-- A transaction row (`dataModels/transaction.py` / `transactions` table). -/
structure Transaction where
  id : Nat
  account_id : String
  user_id : String
  transaction_type : TransactionType
  status : TransactionStatus
  amount : Rat
  reference_number : Option String
  collateral_id : Option String
  loan_balance_before : Option Rat
  loan_balance_after : Option Rat
  invested_balance_before : Option Rat
  invested_balance_after : Option Rat
  failure_reason : Option String
deriving DecidableEq, Repr

/-- A collateral row (`dataModels/collateral.py` / `collaterals` table).
`due_date` is an abstract day number standing for the stored datetime. -/
structure Collateral where
  id : String
  user_id : String
  status : CollateralStatus
  loan_amount : Rat
  loan_limit : Rat
  due_date : Int
deriving DecidableEq, Repr

/-- `TransactionCreate` (`dataModels/transaction.py`): the payload given to
`TransactionDB.create_transaction`.  The balance-snapshot fields of the
Python model are always `None` at the call sites modelled here. -/
structure TransactionCreate where
  account_id : String
  user_id : String
  transaction_type : TransactionType
  amount : Rat
  reference_number : Option String
  collateral_id : Option String
deriving DecidableEq, Repr

/-- The persistent store: the `accounts`, `transactions`, `collaterals` and
`users` tables, plus the uuid source for new transactions. -/
structure DBState where
  accounts : List Account
  transactions : List Transaction
  collaterals : List Collateral
  users : List String
  nextTxnId : Nat
deriving DecidableEq, Repr

/-- Structured rendering of the `ValueError` messages raised by
`services/balance_service.py` (each constructor is one `raise` site). -/
inductive BalanceError where
  | accountNotFound (account_id : String)
  | transactionNotFound (transaction_id : Nat)
  | insufficientInvestment (available required : Rat)
  | insufficientLoan (available required : Rat)
  | insufficientInvestmentFee (available required : Rat)
  | orgLoanDisbursement
  | orgAccountNotFound
  | missingSnapshot (transaction_id : Nat)
  | recursionLimit
deriving DecidableEq, Repr

/-- The `str(e)` rendering of a `BalanceError`, matching the Python message
texts (stored into `failure_reason` by the callers). -/
def BalanceError.toMessage : BalanceError → String
  | .accountNotFound a => "Account " ++ a ++ " not found"
  | .transactionNotFound i => "Transaction " ++ toString i ++ " not found"
  | .insufficientInvestment av rq =>
      "Insufficient investment balance. Available: " ++ toString av ++ ", Required: " ++ toString rq
  | .insufficientLoan av rq =>
      "Insufficient loan balance. Available: " ++ toString av ++ ", Required: " ++ toString rq
  | .insufficientInvestmentFee av rq =>
      "Insufficient investment balance for fee. Available: " ++ toString av ++ ", Required: " ++ toString rq
  | .orgLoanDisbursement => "Organization cannot receive loan disbursements"
  | .orgAccountNotFound => "Organization account not found"
  | .missingSnapshot i => "Transaction " ++ toString i ++ " does not have balance information to revert"
  | .recursionLimit => "recursion limit"

/-- The dictionary returned by
`BalanceService.process_transaction_balances` on success. -/
structure BalanceResult where
  loan_balance_before : Rat
  loan_balance_after : Rat
  invested_balance_before : Rat
  invested_balance_after : Rat
deriving DecidableEq, Repr

/-- The decoded result of `Crossmint.transfer` as the routes consume it:
`crossmint_result.get("error", False)` and `.get("message", ...)`.  A
successful gateway reply carries no `error` key, hence `error = false`. -/
structure CrossmintResult where
  error : Bool
  message : String
deriving DecidableEq, Repr

/-- A raised `HTTPException(status_code, detail)`. -/
structure HTTPError where
  status : Nat
  detail : String
deriving DecidableEq, Repr

namespace AccountDB

/-- `AccountDB.get_account_by_id` (`db/account.py`): `SELECT ... WHERE id = %s`. -/
def get_account_by_id (s : DBState) (account_id : String) : Option Account :=
  s.accounts.find? fun a => a.id == account_id

/-- `AccountDB.get_account_by_user_id` (`db/account.py`). -/
def get_account_by_user_id (s : DBState) (user_id : String) : Option Account :=
  s.accounts.find? fun a => a.user_id == user_id

/-- `AccountDB.get_organization_account` (`db/account.py`):
`WHERE user_id = 'organization' OR account_number LIKE 'ORG%' LIMIT 1`.
The `LIKE 'ORG%'` check is rendered on the character list so that it
evaluates definitionally (`String.startsWith` does not). -/
def get_organization_account (s : DBState) : Option Account :=
  s.accounts.find? fun a =>
    a.user_id == "organization" || List.isPrefixOf "ORG".data a.account_number.data

/-- `AccountDB.update_account_balances` (`db/account.py`): an unconditional
`UPDATE accounts SET ... WHERE id = %s`; each field is written only when the
corresponding argument is not `None`.  There is no non-negativity (or any
other) check. -/
def update_account_balances (s : DBState) (account_id : String)
    (loan_balance investment_balance : Option Rat) : DBState :=
  { s with accounts := s.accounts.map fun a =>
      if a.id == account_id then
        { a with
          loan_balance := loan_balance.getD a.loan_balance
          investment_balance := investment_balance.getD a.investment_balance }
      else a }

end AccountDB

namespace TransactionDB

/-- `TransactionDB.create_transaction` (`db/transaction.py`): inserts a new
row with a fresh uuid and `status = "pending"`, then returns it. -/
def create_transaction (s : DBState) (d : TransactionCreate) : DBState × Transaction :=
  let t : Transaction :=
    { id := s.nextTxnId
      account_id := d.account_id
      user_id := d.user_id
      transaction_type := d.transaction_type
      status := .pending
      amount := d.amount
      reference_number := d.reference_number
      collateral_id := d.collateral_id
      loan_balance_before := none
      loan_balance_after := none
      invested_balance_before := none
      invested_balance_after := none
      failure_reason := none }
  ({ s with transactions := s.transactions ++ [t], nextTxnId := s.nextTxnId + 1 }, t)

/-- `TransactionDB.get_transaction_by_id` (`db/transaction.py`). -/
def get_transaction_by_id (s : DBState) (transaction_id : Nat) : Option Transaction :=
  s.transactions.find? fun t => t.id == transaction_id

/-- `TransactionDB.update_transaction_balances` (`db/transaction.py`): writes
exactly the snapshot fields whose argument is not `None`. -/
def update_transaction_balances (s : DBState) (transaction_id : Nat)
    (lb la ib ia : Option Rat) : DBState :=
  { s with transactions := s.transactions.map fun t =>
      if t.id == transaction_id then
        { t with
          loan_balance_before := match lb with | some v => some v | none => t.loan_balance_before
          loan_balance_after := match la with | some v => some v | none => t.loan_balance_after
          invested_balance_before := match ib with | some v => some v | none => t.invested_balance_before
          invested_balance_after := match ia with | some v => some v | none => t.invested_balance_after }
      else t }

/-- `TransactionDB.mark_transaction_completed` (`db/transaction.py`): an
unconditional `UPDATE ... SET status = 'completed' WHERE id = %s` — the
current status is not consulted. -/
def mark_transaction_completed (s : DBState) (transaction_id : Nat) : DBState :=
  { s with transactions := s.transactions.map fun t =>
      if t.id == transaction_id then { t with status := .completed } else t }

/-- `TransactionDB.mark_transaction_failed` (`db/transaction.py`): an
unconditional `UPDATE ... SET status = 'failed', failure_reason = %s`. -/
def mark_transaction_failed (s : DBState) (transaction_id : Nat)
    (failure_reason : String) : DBState :=
  { s with transactions := s.transactions.map fun t =>
      if t.id == transaction_id then
        { t with status := .failed, failure_reason := some failure_reason }
      else t }

end TransactionDB

namespace UserDB

/-- `UserDB.get_user_by_id` (`db/user.py`), reduced to the existence check the
routes make: the user record's other fields are never consulted. -/
def get_user_by_id (s : DBState) (user_id : String) : Option String :=
  if s.users.contains user_id then some user_id else none

end UserDB

namespace BalanceService

/-- `BalanceService.calculate_balances_for_transaction`
(`services/balance_service.py` lines 18–95): the pure balance calculator.
Returns `(loan_before, loan_after, invested_before, invested_after)`. -/
def calculate_balances_for_transaction (s : DBState) (account_id : String)
    (transaction_type : TransactionType) (amount : Rat) (user_id : String) :
    Except BalanceError (Rat × Rat × Rat × Rat) :=
  match AccountDB.get_account_by_id s account_id with
  | none => .error (.accountNotFound account_id)
  | some account =>
    let lb := account.loan_balance
    let ib := account.investment_balance
    match transaction_type with
    | .deposit =>
        .ok (lb, if user_id == "organization" then 0 else lb, ib, ib + amount)
    | .withdrawal =>
        if ib < amount then .error (.insufficientInvestment ib amount)
        else .ok (lb, if user_id == "organization" then 0 else lb, ib, ib - amount)
    | .loan_disbursement =>
        if user_id == "organization" then .error .orgLoanDisbursement
        else .ok (lb, lb + amount, ib, ib)
    | .payment =>
        if user_id == "organization" then
          if ib < amount then .error (.insufficientInvestment ib amount)
          else .ok (lb, 0, ib, ib - amount)
        else
          if lb < amount then .error (.insufficientLoan lb amount)
          else .ok (lb, lb - amount, ib, ib)
    | .fee =>
        if ib < amount then .error (.insufficientInvestmentFee ib amount)
        else .ok (lb, if user_id == "organization" then 0 else lb, ib, ib - amount)
    | .interest =>
        .ok (lb, if user_id == "organization" then 0 else lb, ib, ib + amount)

/-- `BalanceService.update_account_balances` (`services/balance_service.py`):
writes both balances through the account store. -/
def update_account_balances (s : DBState) (account_id : String)
    (loan_balance investment_balance : Rat) : DBState :=
  AccountDB.update_account_balances s account_id (some loan_balance) (some investment_balance)

/-- `BalanceService._get_opposite_transaction_type`
(`services/balance_service.py` lines 221–233); the Python dict covers all six
types, so the `.get` default is unreachable. -/
def get_opposite_transaction_type : TransactionType → TransactionType
  | .deposit => .deposit
  | .withdrawal => .withdrawal
  | .loan_disbursement => .withdrawal
  | .payment => .deposit
  | .fee => .interest
  | .interest => .fee

/-- The transaction types that trigger a mirrored organization transaction in
`process_transaction_balances` (`services/balance_service.py` lines 144–150). -/
def mirrored_transaction_types : List TransactionType :=
  [.deposit, .withdrawal, .loan_disbursement, .payment, .fee]

/-- The `opposite_transaction_data = TransactionCreate(...)` payload built in
`BalanceService.create_opposite_organization_transaction`: the mirror is owned
by `"organization"`, carries the opposite type, the same amount, and its
`reference_number` points back at the original transaction id. -/
def opposite_transaction_data (org_account : Account) (user_transaction_id : Nat)
    (transaction_type : TransactionType) (amount : Rat)
    (collateral_id : Option String) : TransactionCreate :=
  { account_id := org_account.id
    user_id := "organization"
    transaction_type := get_opposite_transaction_type transaction_type
    amount := amount
    reference_number := some (toString user_transaction_id)
    collateral_id := collateral_id }

/-- The body of `BalanceService.create_opposite_organization_transaction`
(`services/balance_service.py` lines 172–219), abstracted over the
recursive call back into `process_transaction_balances` (the Python
functions are mutually recursive; the abstraction keeps the Lean recursion
structural in the fuel).  Creates the mirrored organization transaction and
processes it; if processing raises, the mirror is marked failed and the
error is re-raised (with the mutations committed so far kept). -/
def create_opposite_core
    (process : DBState → Nat → DBState × Except BalanceError BalanceResult)
    (s : DBState) (user_transaction_id : Nat) (user_account_id user_id : String)
    (transaction_type : TransactionType) (amount : Rat)
    (collateral_id : Option String) : DBState × Except BalanceError Transaction :=
  match AccountDB.get_organization_account s with
  | none => (s, .error .orgAccountNotFound)
  | some org_account =>
    let sd : TransactionCreate :=
      opposite_transaction_data org_account user_transaction_id transaction_type
        amount collateral_id
    let p := TransactionDB.create_transaction s sd
    match process p.1 p.2.id with
    | (s2, .error e) =>
        (TransactionDB.mark_transaction_failed s2 p.2.id (BalanceError.toMessage e), .error e)
    | (s2, .ok _) => (s2, .ok p.2)

/-- `BalanceService.process_transaction_balances`
(`services/balance_service.py` lines 106–170).  The mutual recursion through
`create_opposite_organization_transaction` is given a fuel argument; in the
source the recursion depth is bounded by the mirror's owner being
`"organization"`, so fuel 2 reproduces every run the code performs (see
`processTransaction`).  On an error result the returned state is the state at
the moment of the raise. -/
def process_transaction_balances : Nat → DBState → Nat →
    DBState × Except BalanceError BalanceResult
  | 0, s, _ => (s, .error .recursionLimit)
  | f + 1, s, transaction_id =>
    match TransactionDB.get_transaction_by_id s transaction_id with
    | none => (s, .error (.transactionNotFound transaction_id))
    | some t =>
      match calculate_balances_for_transaction s t.account_id t.transaction_type t.amount t.user_id with
      | .error e => (s, .error e)
      | .ok (lb, la, ib, ia) =>
        let s1 := TransactionDB.update_transaction_balances s transaction_id
          (some lb) (some la) (some ib) (some ia)
        let s2 := update_account_balances s1 t.account_id la ia
        let s3 := TransactionDB.mark_transaction_completed s2 transaction_id
        let s4 :=
          if mirrored_transaction_types.contains t.transaction_type && t.user_id != "organization" then
            (create_opposite_core (fun a b => process_transaction_balances f a b)
              s3 transaction_id t.account_id
              t.user_id t.transaction_type t.amount t.collateral_id).1
          else s3
        (s4, .ok ⟨lb, la, ib, ia⟩)
termination_by structural fuel s tid => fuel

/-- `BalanceService.create_opposite_organization_transaction`
(`services/balance_service.py` lines 172–219): `create_opposite_core` tied
back to `process_transaction_balances` at the same fuel, exactly the mutual
recursion of the source. -/
def create_opposite_organization_transaction (fuel : Nat) (s : DBState)
    (user_transaction_id : Nat) (user_account_id user_id : String)
    (transaction_type : TransactionType) (amount : Rat)
    (collateral_id : Option String) : DBState × Except BalanceError Transaction :=
  create_opposite_core (fun a b => process_transaction_balances fuel a b)
    s user_transaction_id user_account_id user_id transaction_type amount collateral_id

/-- `process_transaction_balances` as the code runs it: the recursion guard
(`user_id != "organization"` on a mirror whose owner is `"organization"`)
bounds every run's depth to 2, so fuel 2 reproduces the Python behaviour. -/
def processTransaction (s : DBState) (transaction_id : Nat) :
    DBState × Except BalanceError BalanceResult :=
  process_transaction_balances 2 s transaction_id

/-- `BalanceService.revert_transaction_balances`
(`services/balance_service.py` lines 235–261): restores the account to the
transaction's recorded before-values and marks the transaction failed. -/
def revert_transaction_balances (s : DBState) (transaction_id : Nat) :
    DBState × Except BalanceError (Rat × Rat) :=
  match TransactionDB.get_transaction_by_id s transaction_id with
  | none => (s, .error (.transactionNotFound transaction_id))
  | some t =>
    match t.loan_balance_before, t.invested_balance_before with
    | some lb, some ib =>
      let s1 := update_account_balances s t.account_id lb ib
      let s2 := TransactionDB.mark_transaction_failed s1 transaction_id
        "Reverted due to Crossmint failure"
      (s2, .ok (lb, ib))
    | _, _ => (s, .error (.missingSnapshot transaction_id))

end BalanceService

namespace CollateralDB

/-- `CollateralDB.get_collateral_by_id` (`db/collateral.py`). -/
def get_collateral_by_id (s : DBState) (collateral_id : String) : Option Collateral :=
  s.collaterals.find? fun c => c.id == collateral_id

/-- `CollateralDB.update_loan_amount` (`db/collateral.py` lines 348–362): an
unconditional `UPDATE collaterals SET loan_amount = %s WHERE id = %s`. -/
def update_loan_amount (s : DBState) (collateral_id : String)
    (new_loan_amount : Rat) : DBState :=
  { s with collaterals := s.collaterals.map fun c =>
      if c.id == collateral_id then { c with loan_amount := new_loan_amount } else c }

/-- `CollateralDB.approve_collateral` (`db/collateral.py` lines 158–216):
checks `pending` status and the loan limit, commits `status = approved` and
the loan amount, then creates a `loan_disbursement` transaction directly via
`TransactionDB.create_transaction`.  The transaction is left `pending`: the
Balance Service is never invoked, so no account balance changes here. -/
def approve_collateral (s : DBState) (collateral_id : String)
    (loan_amount : Rat) : DBState × Except String Collateral :=
  match get_collateral_by_id s collateral_id with
  | none => (s, .error "Collateral not found")
  | some c =>
    if c.status != CollateralStatus.pending then
      (s, .error "Collateral is not in pending status")
    else if c.loan_limit < loan_amount then
      (s, .error ("Loan amount " ++ toString loan_amount ++ " exceeds limit " ++ toString c.loan_limit))
    else
      let s1 : DBState :=
        { s with collaterals := s.collaterals.map fun x =>
            if x.id == collateral_id then
              { x with status := .approved, loan_amount := loan_amount }
            else x }
      match AccountDB.get_account_by_user_id s1 c.user_id with
      | none => (s1, .error "User account not found")
      | some user_account =>
        let sd : TransactionCreate :=
          { account_id := user_account.id
            user_id := c.user_id
            transaction_type := .loan_disbursement
            amount := loan_amount
            reference_number := some ("LOAN-" ++ collateral_id.take 8)
            collateral_id := some collateral_id }
        let p := TransactionDB.create_transaction s1 sd
        match get_collateral_by_id p.1 collateral_id with
        | none => (p.1, .error "Failed to update collateral")
        | some c2 => (p.1, .ok c2)

end CollateralDB

/-- `DepositRequest` / `WithdrawalRequest` / `PaymentRequest`
(`dataModels/transaction.py`), reduced to the fields the routes read. -/
structure MoneyRequest where
  account_id : String
  user_id : String
  amount : Rat
  reference_number : Option String
  collateral_id : Option String
deriving DecidableEq, Repr

/-- `ExtendLoanRequest` (`dataModels/transaction.py`). -/
structure ExtendLoanRequest where
  account_id : String
  user_id : String
  collateral_id : String
  extension_days : Nat
  fee : Rat
  reference_number : Option String
deriving DecidableEq, Repr

namespace Routes

/-- `deposit_money` (`routes/transactions.py` lines 19–71).  The Settlement
Gateway outcome (`crossmint.transfer`) is the `gw` parameter.  This is the
only route that inspects the gateway result: on `{error}` it reverts the
balance changes, marks the transaction failed with the gateway message, and
raises a 400. -/
def deposit_money (s : DBState) (r : MoneyRequest) (gw : CrossmintResult) :
    DBState × Except HTTPError Transaction :=
  match AccountDB.get_account_by_id s r.account_id with
  | none => (s, .error ⟨404, "Account not found"⟩)
  | some _ =>
    match UserDB.get_user_by_id s r.user_id with
    | none => (s, .error ⟨404, "User not found"⟩)
    | some _ =>
      let p := TransactionDB.create_transaction s
        { account_id := r.account_id
          user_id := r.user_id
          transaction_type := .deposit
          amount := r.amount
          reference_number := r.reference_number
          collateral_id := none }
      match BalanceService.processTransaction p.1 p.2.id with
      | (s2, .error e) =>
          (TransactionDB.mark_transaction_failed s2 p.2.id (BalanceError.toMessage e),
           .error ⟨400, BalanceError.toMessage e⟩)
      | (s2, .ok _) =>
        if gw.error then
          match BalanceService.revert_transaction_balances s2 p.2.id with
          | (s3, .error e) =>
              (TransactionDB.mark_transaction_failed s3 p.2.id (BalanceError.toMessage e),
               .error ⟨400, BalanceError.toMessage e⟩)
          | (s3, .ok _) =>
              let msg := "Crossmint transfer failed: " ++ gw.message
              (TransactionDB.mark_transaction_failed s3 p.2.id msg, .error ⟨400, msg⟩)
        else (s2, .ok p.2)

/-- `withdraw_money` (`routes/transactions.py` lines 74–118).  The gateway
result is printed and otherwise ignored: there is no `{error}` check and no
revert on this path. -/
def withdraw_money (s : DBState) (r : MoneyRequest) (gw : CrossmintResult) :
    DBState × Except HTTPError Transaction :=
  match AccountDB.get_account_by_id s r.account_id with
  | none => (s, .error ⟨404, "Account not found"⟩)
  | some _ =>
    match UserDB.get_user_by_id s r.user_id with
    | none => (s, .error ⟨404, "User not found"⟩)
    | some _ =>
      let p := TransactionDB.create_transaction s
        { account_id := r.account_id
          user_id := r.user_id
          transaction_type := .withdrawal
          amount := r.amount
          reference_number := r.reference_number
          collateral_id := none }
      match BalanceService.processTransaction p.1 p.2.id with
      | (s2, .error e) =>
          (TransactionDB.mark_transaction_failed s2 p.2.id (BalanceError.toMessage e),
           .error ⟨400, BalanceError.toMessage e⟩)
      | (s2, .ok _) => (s2, .ok p.2)

/-- `pay_loan` (`routes/transactions.py` lines 121–166).  Like
`withdraw_money`, the gateway result is ignored. -/
def pay_loan (s : DBState) (r : MoneyRequest) (gw : CrossmintResult) :
    DBState × Except HTTPError Transaction :=
  match AccountDB.get_account_by_id s r.account_id with
  | none => (s, .error ⟨404, "Account not found"⟩)
  | some _ =>
    match UserDB.get_user_by_id s r.user_id with
    | none => (s, .error ⟨404, "User not found"⟩)
    | some _ =>
      let p := TransactionDB.create_transaction s
        { account_id := r.account_id
          user_id := r.user_id
          transaction_type := .payment
          amount := r.amount
          reference_number := r.reference_number
          collateral_id := r.collateral_id }
      match BalanceService.processTransaction p.1 p.2.id with
      | (s2, .error e) =>
          (TransactionDB.mark_transaction_failed s2 p.2.id (BalanceError.toMessage e),
           .error ⟨400, BalanceError.toMessage e⟩)
      | (s2, .ok _) => (s2, .ok p.2)

/-- Route `approve_collateral` (`routes/collaterals.py` lines 218–232): a 404
existence check, then `CollateralDB.approve_collateral`; any raised
`Exception` surfaces as a 500 "Database error". -/
def approve_collateral (s : DBState) (collateral_id : String)
    (loan_amount : Rat) : DBState × Except HTTPError Collateral :=
  match CollateralDB.get_collateral_by_id s collateral_id with
  | none => (s, .error ⟨404, "Collateral not found"⟩)
  | some _ =>
    match CollateralDB.approve_collateral s collateral_id loan_amount with
    | (s1, .error m) => (s1, .error ⟨500, "Database error: " ++ m⟩)
    | (s1, .ok c) => (s1, .ok c)

/-- `extend_loan` (`routes/collaterals.py` lines 291–381): requires an
`approved` collateral, creates a `fee` transaction, then — bypassing the
Balance Service — directly adds the fee to the account's loan balance,
records the snapshot, marks the transaction completed, and adds the fee to
the collateral's `loan_amount`.  The collateral's `due_date` is never
touched; `extension_days` only reaches the transaction's metadata. -/
def extend_loan (s : DBState) (r : ExtendLoanRequest) :
    DBState × Except HTTPError Transaction :=
  match CollateralDB.get_collateral_by_id s r.collateral_id with
  | none => (s, .error ⟨404, "Collateral not found"⟩)
  | some c =>
    if c.status != CollateralStatus.approved then
      (s, .error ⟨400, "Collateral is not approved"⟩)
    else
      match AccountDB.get_account_by_id s r.account_id with
      | none => (s, .error ⟨404, "Account not found"⟩)
      | some _ =>
        match UserDB.get_user_by_id s r.user_id with
        | none => (s, .error ⟨404, "User not found"⟩)
        | some _ =>
          let p := TransactionDB.create_transaction s
            { account_id := r.account_id
              user_id := r.user_id
              transaction_type := .fee
              amount := r.fee
              reference_number := r.reference_number
              collateral_id := some r.collateral_id }
          match AccountDB.get_account_by_id p.1 r.account_id with
          | none =>
              -- unreachable: the account was found above and state is unchanged;
              -- in Python this would be an AttributeError caught by the inner
              -- `except Exception`, marking the transaction failed with a 400.
              (TransactionDB.mark_transaction_failed p.1 p.2.id "Account not found",
               .error ⟨400, "Account not found"⟩)
          | some account =>
            let new_loan_balance := account.loan_balance + r.fee
            let s2 := AccountDB.update_account_balances p.1 r.account_id
              (some new_loan_balance) (some account.investment_balance)
            let s3 := TransactionDB.update_transaction_balances s2 p.2.id
              (some account.loan_balance) (some new_loan_balance)
              (some account.investment_balance) (some account.investment_balance)
            let s4 := TransactionDB.mark_transaction_completed s3 p.2.id
            let s5 := CollateralDB.update_loan_amount s4 r.collateral_id
              (c.loan_amount + r.fee)
            (s5, .ok p.2)

end Routes

/-- Transaction-id freshness: every stored transaction has an id strictly
below the uuid source, so a newly created transaction's id is new.  This
models the uniqueness of uuids; any state built by the operations from an
empty store satisfies it. -/
def TxnIdsFresh (s : DBState) : Prop :=
  ∀ t ∈ s.transactions, t.id < s.nextTxnId

instance (s : DBState) : Decidable (TxnIdsFresh s) := by
  unfold TxnIdsFresh; infer_instance

/-! ### List helpers: `find?` against id-guarded rewrites -/

theorem find?_map_stable {α : Type} (f : α → α) (p : α → Bool)
    (hp : ∀ a, p (f a) = p a) :
    ∀ l : List α, (l.map f).find? p = (l.find? p).map f := by
  intro l
  induction l with
  | nil => rfl
  | cons a l ih =>
      simp only [List.map_cons, List.find?_cons]
      rw [hp a]
      cases h : p a <;> simp [ih]

theorem find?_append_none {α : Type} (p : α → Bool) (l₁ l₂ : List α)
    (h : l₁.find? p = none) : (l₁ ++ l₂).find? p = l₂.find? p := by
  induction l₁ with
  | nil => rfl
  | cons a l ih =>
      simp only [List.cons_append, List.find?_cons] at h ⊢
      cases ha : p a
      · simp only [ha] at h ⊢
        exact ih h
      · simp [ha] at h

theorem find?_append_some {α : Type} (p : α → Bool) (l₁ l₂ : List α) (a : α)
    (h : l₁.find? p = some a) : (l₁ ++ l₂).find? p = some a := by
  induction l₁ with
  | nil => simp [List.find?] at h
  | cons b l ih =>
      simp only [List.cons_append, List.find?_cons] at h ⊢
      cases hb : p b
      · simp only [hb] at h ⊢
        exact ih h
      · simp only [hb] at h ⊢
        exact h

theorem find?_none_of_all {α : Type} (p : α → Bool) (l : List α)
    (h : ∀ a ∈ l, p a = false) : l.find? p = none := by
  induction l with
  | nil => rfl
  | cons a l ih =>
      simp only [List.find?_cons, h a (List.mem_cons_self a l)]
      exact ih fun b hb => h b (List.mem_cons_of_mem a hb)

theorem find?_pred {α : Type} (p : α → Bool) (l : List α) (a : α)
    (h : l.find? p = some a) : p a = true := by
  induction l with
  | nil => simp [List.find?] at h
  | cons b l ih =>
      simp only [List.find?_cons] at h
      cases hb : p b
      · simp only [hb] at h
        exact ih h
      · simp only [hb] at h
        cases h
        exact hb

/-! ### Effect of each store operation on lookups -/

theorem getTxn_of_txnMap (g : Transaction → Transaction)
    (hg : ∀ t, (g t).id = t.id) (tid j : Nat) (l : List Transaction) :
    (l.map fun t => if t.id == tid then g t else t).find? (fun t => t.id == j)
      = (l.find? (fun t => t.id == j)).map fun t => if t.id == tid then g t else t := by
  apply find?_map_stable
  intro t
  by_cases h : t.id == tid <;> simp [h, hg]

theorem getTxn_update_transaction_balances (s : DBState) (tid j : Nat)
    (lb la ib ia : Option Rat) :
    TransactionDB.get_transaction_by_id
        (TransactionDB.update_transaction_balances s tid lb la ib ia) j
      = (TransactionDB.get_transaction_by_id s j).map fun t =>
          if t.id == tid then
            { t with
              loan_balance_before := match lb with | some v => some v | none => t.loan_balance_before
              loan_balance_after := match la with | some v => some v | none => t.loan_balance_after
              invested_balance_before := match ib with | some v => some v | none => t.invested_balance_before
              invested_balance_after := match ia with | some v => some v | none => t.invested_balance_after }
          else t := by
  apply getTxn_of_txnMap
  intro t
  rfl

theorem getTxn_mark_completed (s : DBState) (tid j : Nat) :
    TransactionDB.get_transaction_by_id (TransactionDB.mark_transaction_completed s tid) j
      = (TransactionDB.get_transaction_by_id s j).map fun t =>
          if t.id == tid then { t with status := .completed } else t := by
  apply getTxn_of_txnMap
  intro t
  rfl

theorem getTxn_mark_failed (s : DBState) (tid j : Nat) (m : String) :
    TransactionDB.get_transaction_by_id (TransactionDB.mark_transaction_failed s tid m) j
      = (TransactionDB.get_transaction_by_id s j).map fun t =>
          if t.id == tid then { t with status := .failed, failure_reason := some m } else t := by
  apply getTxn_of_txnMap
  intro t
  rfl

theorem getTxn_other_of_map (s s' : DBState) (tid j : Nat)
    (g : Transaction → Transaction)
    (h : TransactionDB.get_transaction_by_id s' j
      = (TransactionDB.get_transaction_by_id s j).map fun t => if t.id == tid then g t else t)
    (hj : j ≠ tid) :
    TransactionDB.get_transaction_by_id s' j = TransactionDB.get_transaction_by_id s j := by
  rw [h]
  cases hfind : TransactionDB.get_transaction_by_id s j with
  | none => rfl
  | some t =>
      have hfind2 : s.transactions.find? (fun u => u.id == j) = some t := hfind
      have hid : (fun u : Transaction => u.id == j) t = true :=
        find?_pred (fun u => u.id == j) s.transactions t hfind2
      have hid2 : t.id = j := by simpa using hid
      simp [Option.map_some, hid2, hj]

theorem getTxn_update_account_balances (s : DBState) (aid : String)
    (lb ib : Option Rat) (j : Nat) :
    TransactionDB.get_transaction_by_id (AccountDB.update_account_balances s aid lb ib) j
      = TransactionDB.get_transaction_by_id s j := rfl

theorem getTxn_update_loan_amount (s : DBState) (cid : String) (v : Rat) (j : Nat) :
    TransactionDB.get_transaction_by_id (CollateralDB.update_loan_amount s cid v) j
      = TransactionDB.get_transaction_by_id s j := rfl

theorem getTxn_create_old (s : DBState) (d : TransactionCreate) (j : Nat)
    (hj : j ≠ s.nextTxnId) :
    TransactionDB.get_transaction_by_id (TransactionDB.create_transaction s d).1 j
      = TransactionDB.get_transaction_by_id s j := by
  show (s.transactions ++ [_]).find? _ = _
  cases hfind : s.transactions.find? (fun t => t.id == j) with
  | none =>
      rw [find?_append_none _ _ _ hfind]
      have hne : (s.nextTxnId == j) = false := by
        simpa using Ne.symm hj
      simp [List.find?, hne, TransactionDB.get_transaction_by_id, hfind]
  | some t =>
      rw [find?_append_some _ _ _ _ hfind]
      simp [TransactionDB.get_transaction_by_id, hfind]

theorem getTxn_create_new (s : DBState) (d : TransactionCreate)
    (hfresh : TxnIdsFresh s) :
    TransactionDB.get_transaction_by_id (TransactionDB.create_transaction s d).1 s.nextTxnId
      = some (TransactionDB.create_transaction s d).2 := by
  show (s.transactions ++ [_]).find? _ = _
  rw [find?_append_none]
  · simp [List.find?]
    rfl
  · exact find?_none_of_all _ _ fun t ht => by
      simpa using Nat.ne_of_lt (hfresh t ht)

theorem getAcct_update_account_balances (s : DBState) (aid : String)
    (lb ib : Option Rat) (b : String) :
    AccountDB.get_account_by_id (AccountDB.update_account_balances s aid lb ib) b
      = (AccountDB.get_account_by_id s b).map fun a =>
          if a.id == aid then
            { a with
              loan_balance := lb.getD a.loan_balance
              investment_balance := ib.getD a.investment_balance }
          else a := by
  apply find?_map_stable
  intro a
  by_cases h : a.id == aid <;> simp [h]

theorem getAcct_update_self (s : DBState) (aid : String) (lb ib : Rat) (a : Account)
    (h : AccountDB.get_account_by_id s aid = some a) :
    AccountDB.get_account_by_id (AccountDB.update_account_balances s aid (some lb) (some ib)) aid
      = some { a with loan_balance := lb, investment_balance := ib } := by
  rw [getAcct_update_account_balances, h]
  have h2 : s.accounts.find? (fun u => u.id == aid) = some a := h
  have hid : (fun u : Account => u.id == aid) a = true :=
    find?_pred (fun u => u.id == aid) s.accounts a h2
  have hid2 : a.id = aid := by simpa using hid
  simp [hid2, Option.getD]

theorem getAcct_update_other (s : DBState) (aid : String) (lb ib : Option Rat)
    (b : String) (hb : b ≠ aid) :
    AccountDB.get_account_by_id (AccountDB.update_account_balances s aid lb ib) b
      = AccountDB.get_account_by_id s b := by
  rw [getAcct_update_account_balances]
  cases hfind : AccountDB.get_account_by_id s b with
  | none => rfl
  | some a =>
      have h2 : s.accounts.find? (fun u => u.id == b) = some a := hfind
      have hid : (fun u : Account => u.id == b) a = true :=
        find?_pred (fun u => u.id == b) s.accounts a h2
      have hid2 : a.id = b := by simpa using hid
      simp [hid2, hb]

theorem getAcct_create (s : DBState) (d : TransactionCreate) (b : String) :
    AccountDB.get_account_by_id (TransactionDB.create_transaction s d).1 b
      = AccountDB.get_account_by_id s b := rfl

theorem getAcct_txn_ops (s : DBState) (tid : Nat) (lb la ib ia : Option Rat)
    (m : String) (b : String) :
    AccountDB.get_account_by_id (TransactionDB.update_transaction_balances s tid lb la ib ia) b
      = AccountDB.get_account_by_id s b
    ∧ AccountDB.get_account_by_id (TransactionDB.mark_transaction_completed s tid) b
      = AccountDB.get_account_by_id s b
    ∧ AccountDB.get_account_by_id (TransactionDB.mark_transaction_failed s tid m) b
      = AccountDB.get_account_by_id s b :=
  ⟨rfl, rfl, rfl⟩

theorem getOrg_update_account_balances (s : DBState) (aid : String)
    (lb ib : Option Rat) :
    AccountDB.get_organization_account (AccountDB.update_account_balances s aid lb ib)
      = (AccountDB.get_organization_account s).map fun a =>
          if a.id == aid then
            { a with
              loan_balance := lb.getD a.loan_balance
              investment_balance := ib.getD a.investment_balance }
          else a := by
  apply find?_map_stable
  intro a
  by_cases h : a.id == aid <;> simp [h]

theorem nextTxnId_ops (s : DBState) (tid : Nat) (lb la ib ia : Option Rat)
    (m : String) (aid : String) (l i : Option Rat) :
    (TransactionDB.update_transaction_balances s tid lb la ib ia).nextTxnId = s.nextTxnId
    ∧ (TransactionDB.mark_transaction_completed s tid).nextTxnId = s.nextTxnId
    ∧ (TransactionDB.mark_transaction_failed s tid m).nextTxnId = s.nextTxnId
    ∧ (AccountDB.update_account_balances s aid l i).nextTxnId = s.nextTxnId :=
  ⟨rfl, rfl, rfl, rfl⟩

theorem txnIdsFresh_of_map (s : DBState) (g : Transaction → Transaction)
    (hg : ∀ t, (g t).id = t.id) (tid : Nat) (h : TxnIdsFresh s) :
    TxnIdsFresh { s with transactions := s.transactions.map fun t => if t.id == tid then g t else t } := by
  intro t ht
  simp only [List.mem_map] at ht
  obtain ⟨u, hu, rfl⟩ := ht
  by_cases hid : u.id == tid <;> simp [hid, hg, h u hu]

theorem txnIdsFresh_update_transaction_balances (s : DBState) (tid : Nat)
    (lb la ib ia : Option Rat) (h : TxnIdsFresh s) :
    TxnIdsFresh (TransactionDB.update_transaction_balances s tid lb la ib ia) := by
  intro t ht
  simp only [TransactionDB.update_transaction_balances, List.mem_map] at ht ⊢
  obtain ⟨u, hu, rfl⟩ := ht
  by_cases hid : u.id == tid <;> simp [hid, h u hu]

theorem txnIdsFresh_mark_completed (s : DBState) (tid : Nat) (h : TxnIdsFresh s) :
    TxnIdsFresh (TransactionDB.mark_transaction_completed s tid) := by
  intro t ht
  simp only [TransactionDB.mark_transaction_completed, List.mem_map] at ht ⊢
  obtain ⟨u, hu, rfl⟩ := ht
  by_cases hid : u.id == tid <;> simp [hid, h u hu]

theorem txnIdsFresh_mark_failed (s : DBState) (tid : Nat) (m : String) (h : TxnIdsFresh s) :
    TxnIdsFresh (TransactionDB.mark_transaction_failed s tid m) := by
  intro t ht
  simp only [TransactionDB.mark_transaction_failed, List.mem_map] at ht ⊢
  obtain ⟨u, hu, rfl⟩ := ht
  by_cases hid : u.id == tid <;> simp [hid, h u hu]

theorem txnIdsFresh_update_account_balances (s : DBState) (aid : String)
    (lb ib : Option Rat) (h : TxnIdsFresh s) :
    TxnIdsFresh (AccountDB.update_account_balances s aid lb ib) := h

theorem txnIdsFresh_create (s : DBState) (d : TransactionCreate) (h : TxnIdsFresh s) :
    TxnIdsFresh (TransactionDB.create_transaction s d).1 := by
  intro t ht
  simp only [TransactionDB.create_transaction, List.mem_append, List.mem_singleton] at ht
  rcases ht with ht | rfl
  · exact Nat.lt_succ_of_lt (h t ht)
  · exact Nat.lt_succ_self _

theorem txns_length_ops (s : DBState) (tid : Nat) (lb la ib ia : Option Rat)
    (m : String) (aid : String) (l i : Option Rat) :
    (TransactionDB.update_transaction_balances s tid lb la ib ia).transactions.length
        = s.transactions.length
    ∧ (TransactionDB.mark_transaction_completed s tid).transactions.length
        = s.transactions.length
    ∧ (TransactionDB.mark_transaction_failed s tid m).transactions.length
        = s.transactions.length
    ∧ (AccountDB.update_account_balances s aid l i).transactions.length
        = s.transactions.length := by
  refine ⟨?_, ?_, ?_, rfl⟩ <;>
    simp [TransactionDB.update_transaction_balances,
      TransactionDB.mark_transaction_completed, TransactionDB.mark_transaction_failed]

theorem txns_length_create (s : DBState) (d : TransactionCreate) :
    (TransactionDB.create_transaction s d).1.transactions.length
      = s.transactions.length + 1 := by
  simp [TransactionDB.create_transaction]

/-! ### The mirror block at fuel 1

In the source the recursive `process_transaction_balances` call made for a
mirrored organization transaction never recurses further: the mirror's
owner is `"organization"`, so its own mirror guard is false.  The following
lemmas characterise that inner call. -/

theorem process_succ_getTxn_other (f : Nat) (s : DBState) (tid j : Nat) (hj : j ≠ tid)
    (horg : ∀ t, TransactionDB.get_transaction_by_id s tid = some t →
      t.user_id = "organization") :
    TransactionDB.get_transaction_by_id
        (BalanceService.process_transaction_balances (f + 1) s tid).1 j
      = TransactionDB.get_transaction_by_id s j := by
  cases hget : TransactionDB.get_transaction_by_id s tid with
  | none => simp only [BalanceService.process_transaction_balances, hget]
  | some t =>
    cases hcalc : BalanceService.calculate_balances_for_transaction s
        t.account_id t.transaction_type t.amount t.user_id with
    | error e => simp only [BalanceService.process_transaction_balances, hget, hcalc]
    | ok q =>
      obtain ⟨lb, la, ib, ia⟩ := q
      have huser : t.user_id = "organization" := horg t hget
      rw [huser] at hcalc
      simp only [BalanceService.process_transaction_balances, hget, huser, hcalc,
        bne_self_eq_false, Bool.and_false, Bool.false_eq_true, if_false]
      rw [getTxn_other_of_map _ _ tid j _ (getTxn_mark_completed _ tid j) hj]
      simp only [BalanceService.update_account_balances]
      rw [getTxn_update_account_balances,
        getTxn_other_of_map _ _ tid j _ (getTxn_update_transaction_balances _ tid j _ _ _ _) hj]

theorem process_succ_txns_length (f : Nat) (s : DBState) (tid : Nat)
    (horg : ∀ t, TransactionDB.get_transaction_by_id s tid = some t →
      t.user_id = "organization") :
    (BalanceService.process_transaction_balances (f + 1) s tid).1.transactions.length
      = s.transactions.length := by
  cases hget : TransactionDB.get_transaction_by_id s tid with
  | none => simp only [BalanceService.process_transaction_balances, hget]
  | some t =>
    cases hcalc : BalanceService.calculate_balances_for_transaction s
        t.account_id t.transaction_type t.amount t.user_id with
    | error e => simp only [BalanceService.process_transaction_balances, hget, hcalc]
    | ok q =>
      obtain ⟨lb, la, ib, ia⟩ := q
      have huser : t.user_id = "organization" := horg t hget
      rw [huser] at hcalc
      simp only [BalanceService.process_transaction_balances, hget, huser, hcalc,
        bne_self_eq_false, Bool.and_false, Bool.false_eq_true, if_false]
      simp [TransactionDB.mark_transaction_completed,
        TransactionDB.update_transaction_balances, AccountDB.update_account_balances,
        BalanceService.update_account_balances]

theorem createOppCore_none
    (process : DBState → Nat → DBState × Except BalanceError BalanceResult)
    (s : DBState) (utid : Nat) (uaid uname : String) (ty : TransactionType)
    (amt : Rat) (cid : Option String)
    (horg : AccountDB.get_organization_account s = none) :
    BalanceService.create_opposite_core process s utid uaid uname ty amt cid
      = (s, .error .orgAccountNotFound) := by
  unfold BalanceService.create_opposite_core
  rw [horg]

theorem createOppCore_some
    (process : DBState → Nat → DBState × Except BalanceError BalanceResult)
    (s : DBState) (utid : Nat) (uaid uname : String) (ty : TransactionType)
    (amt : Rat) (cid : Option String) (org : Account)
    (horg : AccountDB.get_organization_account s = some org) :
    BalanceService.create_opposite_core process s utid uaid uname ty amt cid
      = (match process
            (TransactionDB.create_transaction s
              (BalanceService.opposite_transaction_data org utid ty amt cid)).1
            (TransactionDB.create_transaction s
              (BalanceService.opposite_transaction_data org utid ty amt cid)).2.id with
         | (s2, .error e) =>
             (TransactionDB.mark_transaction_failed s2
               (TransactionDB.create_transaction s
                 (BalanceService.opposite_transaction_data org utid ty amt cid)).2.id
               (BalanceError.toMessage e), .error e)
         | (s2, .ok _) =>
             (s2, .ok (TransactionDB.create_transaction s
               (BalanceService.opposite_transaction_data org utid ty amt cid)).2)) := by
  unfold BalanceService.create_opposite_core
  rw [horg]

theorem createOpp_one_getTxn_old (s : DBState) (utid : Nat) (uaid uname : String)
    (ty : TransactionType) (amt : Rat) (cid : Option String) (j : Nat)
    (hfresh : TxnIdsFresh s) (hj : j < s.nextTxnId) :
    TransactionDB.get_transaction_by_id
        (BalanceService.create_opposite_organization_transaction 1 s utid uaid uname ty amt cid).1 j
      = TransactionDB.get_transaction_by_id s j := by
  unfold BalanceService.create_opposite_organization_transaction
  cases horg : AccountDB.get_organization_account s with
  | none => rw [createOppCore_none _ _ _ _ _ _ _ _ horg]
  | some org =>
    rw [createOppCore_some _ _ _ _ _ _ _ _ org horg]
    have hid : (TransactionDB.create_transaction s
        (BalanceService.opposite_transaction_data org utid ty amt cid)).2.id
        = s.nextTxnId := rfl
    rw [hid]
    have hne : j ≠ s.nextTxnId := Nat.ne_of_lt hj
    rcases hproc : BalanceService.process_transaction_balances 1
        (TransactionDB.create_transaction s
          (BalanceService.opposite_transaction_data org utid ty amt cid)).1
        s.nextTxnId with ⟨s2, r⟩
    have hs2 : TransactionDB.get_transaction_by_id s2 j
        = TransactionDB.get_transaction_by_id s j := by
      have h1 : s2 = (BalanceService.process_transaction_balances 1
          (TransactionDB.create_transaction s
            (BalanceService.opposite_transaction_data org utid ty amt cid)).1
          s.nextTxnId).1 := by rw [hproc]
      rw [show (1 : Nat) = 0 + 1 from rfl] at h1
      rw [h1, process_succ_getTxn_other 0 _ _ _ hne]
      · exact getTxn_create_old s _ j hne
      · intro u hu
        rw [getTxn_create_new s _ hfresh] at hu
        cases hu
        rfl
    cases r with
    | error e =>
        exact (getTxn_other_of_map s2 _ s.nextTxnId j _
          (getTxn_mark_failed s2 s.nextTxnId j (BalanceError.toMessage e)) hne).trans hs2
    | ok v => exact hs2

theorem getTxn_self_of_map (s s' : DBState) (tid : Nat) (t : Transaction)
    (g : Transaction → Transaction)
    (h : TransactionDB.get_transaction_by_id s' tid
      = (TransactionDB.get_transaction_by_id s tid).map fun u => if u.id == tid then g u else u)
    (hget : TransactionDB.get_transaction_by_id s tid = some t) :
    TransactionDB.get_transaction_by_id s' tid = some (g t) := by
  rw [h, hget]
  have h2 : s.transactions.find? (fun u => u.id == tid) = some t := hget
  have hid : (fun u : Transaction => u.id == tid) t = true :=
    find?_pred (fun u => u.id == tid) s.transactions t h2
  have hid2 : t.id = tid := by simpa using hid
  simp [hid2]

theorem process_succ_getTxn_self_org (f : Nat) (s : DBState) (tid : Nat) (t : Transaction)
    (hget : TransactionDB.get_transaction_by_id s tid = some t)
    (huser : t.user_id = "organization") :
    ∃ u, TransactionDB.get_transaction_by_id
        (BalanceService.process_transaction_balances (f + 1) s tid).1 tid = some u
      ∧ u.account_id = t.account_id
      ∧ u.user_id = "organization"
      ∧ u.transaction_type = t.transaction_type
      ∧ u.amount = t.amount
      ∧ u.reference_number = t.reference_number := by
  cases hcalc : BalanceService.calculate_balances_for_transaction s
      t.account_id t.transaction_type t.amount t.user_id with
  | error e =>
      rw [huser] at hcalc
      refine ⟨t, ?_, rfl, huser, rfl, rfl, rfl⟩
      simp only [BalanceService.process_transaction_balances, hget, huser, hcalc]
  | ok q =>
      obtain ⟨lb, la, ib, ia⟩ := q
      rw [huser] at hcalc
      simp only [BalanceService.process_transaction_balances, hget, huser, hcalc,
        bne_self_eq_false, Bool.and_false, Bool.false_eq_true, if_false]
      have h1 := getTxn_self_of_map _ _ tid t _
        (getTxn_update_transaction_balances s tid tid (some lb) (some la) (some ib) (some ia)) hget
      have h2 := getTxn_self_of_map _ _ tid _ _
        (getTxn_mark_completed (BalanceService.update_account_balances
          (TransactionDB.update_transaction_balances s tid (some lb) (some la) (some ib) (some ia))
          t.account_id la ia) tid tid)
        (by
          show TransactionDB.get_transaction_by_id
            (BalanceService.update_account_balances _ t.account_id la ia) tid = _
          simp only [BalanceService.update_account_balances, getTxn_update_account_balances]
          exact h1)
      refine ⟨{ t with
          status := .completed
          loan_balance_before := some lb
          loan_balance_after := some la
          invested_balance_before := some ib
          invested_balance_after := some ia }, ?_, rfl, huser, rfl, rfl, rfl⟩
      exact h2

theorem createOpp_one_mirror (s : DBState) (utid : Nat) (uaid uname : String)
    (ty : TransactionType) (amt : Rat) (cid : Option String) (org : Account)
    (hfresh : TxnIdsFresh s)
    (horg : AccountDB.get_organization_account s = some org) :
    ∃ m : Transaction,
      TransactionDB.get_transaction_by_id
          (BalanceService.create_opposite_organization_transaction 1 s utid uaid uname ty amt cid).1
          s.nextTxnId = some m
      ∧ m.account_id = org.id
      ∧ m.user_id = "organization"
      ∧ m.transaction_type = BalanceService.get_opposite_transaction_type ty
      ∧ m.amount = amt
      ∧ m.reference_number = some (toString utid) := by
  unfold BalanceService.create_opposite_organization_transaction
  rw [createOppCore_some _ _ _ _ _ _ _ _ org horg]
  have hid : (TransactionDB.create_transaction s
      (BalanceService.opposite_transaction_data org utid ty amt cid)).2.id
      = s.nextTxnId := rfl
  rw [hid]
  rcases hproc : BalanceService.process_transaction_balances 1
      (TransactionDB.create_transaction s
        (BalanceService.opposite_transaction_data org utid ty amt cid)).1
      s.nextTxnId with ⟨s2, r⟩
  have hm0 : TransactionDB.get_transaction_by_id
      (TransactionDB.create_transaction s
        (BalanceService.opposite_transaction_data org utid ty amt cid)).1 s.nextTxnId
      = some (TransactionDB.create_transaction s
        (BalanceService.opposite_transaction_data org utid ty amt cid)).2 :=
    getTxn_create_new s _ hfresh
  obtain ⟨u, hu, hacc, husr, hty, hamt, href⟩ :=
    process_succ_getTxn_self_org 0 _ s.nextTxnId _ hm0 rfl
  rw [hproc] at hu
  cases r with
  | error e =>
      refine ⟨{ u with
          status := .failed
          failure_reason := some (BalanceError.toMessage e) }, ?_, hacc, husr, hty, hamt, href⟩
      exact getTxn_self_of_map s2 _ s.nextTxnId u _
        (getTxn_mark_failed s2 s.nextTxnId s.nextTxnId (BalanceError.toMessage e)) hu
  | ok v => exact ⟨u, hu, hacc, husr, hty, hamt, href⟩

theorem createOpp_one_txns_length (s : DBState) (utid : Nat) (uaid uname : String)
    (ty : TransactionType) (amt : Rat) (cid : Option String) (org : Account)
    (hfresh : TxnIdsFresh s)
    (horg : AccountDB.get_organization_account s = some org) :
    (BalanceService.create_opposite_organization_transaction 1 s utid uaid uname ty amt cid).1.transactions.length
      = s.transactions.length + 1 := by
  unfold BalanceService.create_opposite_organization_transaction
  rw [createOppCore_some _ _ _ _ _ _ _ _ org horg]
  have hid : (TransactionDB.create_transaction s
      (BalanceService.opposite_transaction_data org utid ty amt cid)).2.id
      = s.nextTxnId := rfl
  rw [hid]
  rcases hproc : BalanceService.process_transaction_balances 1
      (TransactionDB.create_transaction s
        (BalanceService.opposite_transaction_data org utid ty amt cid)).1
      s.nextTxnId with ⟨s2, r⟩
  have hlen2 : s2.transactions.length
      = (TransactionDB.create_transaction s
          (BalanceService.opposite_transaction_data org utid ty amt cid)).1.transactions.length := by
    have h1 : s2 = (BalanceService.process_transaction_balances 1
        (TransactionDB.create_transaction s
          (BalanceService.opposite_transaction_data org utid ty amt cid)).1
        s.nextTxnId).1 := by rw [hproc]
    rw [h1]
    rw [show (1 : Nat) = 0 + 1 from rfl]
    apply process_succ_txns_length
    intro u hu
    rw [getTxn_create_new s _ hfresh] at hu
    cases hu
    rfl
  have hlen1 : (TransactionDB.create_transaction s
      (BalanceService.opposite_transaction_data org utid ty amt cid)).1.transactions.length
      = s.transactions.length + 1 := txns_length_create s _
  cases r with
  | error e =>
      have := (txns_length_ops s2 s.nextTxnId none none none none
        (BalanceError.toMessage e) "" none none).2.2.1
      rw [this, hlen2, hlen1]
  | ok v => rw [hlen2, hlen1]

theorem createOpp_one_none (s : DBState) (utid : Nat) (uaid uname : String)
    (ty : TransactionType) (amt : Rat) (cid : Option String)
    (horg : AccountDB.get_organization_account s = none) :
    BalanceService.create_opposite_organization_transaction 1 s utid uaid uname ty amt cid
      = (s, .error .orgAccountNotFound) := by
  unfold BalanceService.create_opposite_organization_transaction
  exact createOppCore_none _ _ _ _ _ _ _ _ horg

theorem process_succ_error (f : Nat) (s : DBState) (tid : Nat) (s' : DBState)
    (e : BalanceError)
    (h : BalanceService.process_transaction_balances (f + 1) s tid = (s', .error e)) :
    s' = s := by
  cases hget : TransactionDB.get_transaction_by_id s tid with
  | none =>
      simp only [BalanceService.process_transaction_balances, hget] at h
      injection h with h1 h2
      exact h1.symm
  | some t =>
    cases hcalc : BalanceService.calculate_balances_for_transaction s
        t.account_id t.transaction_type t.amount t.user_id with
    | error e2 =>
        simp only [BalanceService.process_transaction_balances, hget, hcalc] at h
        injection h with h1 h2
        exact h1.symm
    | ok q =>
        obtain ⟨lb, la, ib, ia⟩ := q
        simp only [BalanceService.process_transaction_balances, hget, hcalc] at h
        injection h with h1 h2
        exact Except.noConfusion h2

theorem getTxn_after_record_complete (s : DBState) (tid : Nat) (t : Transaction)
    (lb la ib ia : Rat) (aid : String)
    (hget : TransactionDB.get_transaction_by_id s tid = some t) :
    TransactionDB.get_transaction_by_id
        (TransactionDB.mark_transaction_completed
          (BalanceService.update_account_balances
            (TransactionDB.update_transaction_balances s tid
              (some lb) (some la) (some ib) (some ia)) aid la ia) tid) tid
      = some { t with
          status := .completed
          loan_balance_before := some lb
          loan_balance_after := some la
          invested_balance_before := some ib
          invested_balance_after := some ia } := by
  have h1 := getTxn_self_of_map _ _ tid t _
    (getTxn_update_transaction_balances s tid tid (some lb) (some la) (some ib) (some ia)) hget
  have h2 := getTxn_self_of_map _ _ tid _ _
    (getTxn_mark_completed (BalanceService.update_account_balances
      (TransactionDB.update_transaction_balances s tid (some lb) (some la) (some ib) (some ia))
      aid la ia) tid tid)
    (by
      show TransactionDB.get_transaction_by_id
        (BalanceService.update_account_balances _ aid la ia) tid = _
      simp only [BalanceService.update_account_balances, getTxn_update_account_balances]
      exact h1)
  exact h2

theorem process_two_ok (s : DBState) (tid : Nat) (t : Transaction) (s' : DBState)
    (r : BalanceResult)
    (hfresh : TxnIdsFresh s)
    (hget : TransactionDB.get_transaction_by_id s tid = some t)
    (hrun : BalanceService.process_transaction_balances 2 s tid = (s', .ok r)) :
    BalanceService.calculate_balances_for_transaction s
        t.account_id t.transaction_type t.amount t.user_id
      = .ok (r.loan_balance_before, r.loan_balance_after,
          r.invested_balance_before, r.invested_balance_after)
    ∧ TransactionDB.get_transaction_by_id s' tid = some
        { t with
          status := .completed
          loan_balance_before := some r.loan_balance_before
          loan_balance_after := some r.loan_balance_after
          invested_balance_before := some r.invested_balance_before
          invested_balance_after := some r.invested_balance_after } := by
  have hget2 : s.transactions.find? (fun u => u.id == tid) = some t := hget
  have htmem : t ∈ s.transactions := List.mem_of_find?_eq_some hget2
  have hpred : (fun u : Transaction => u.id == tid) t = true :=
    find?_pred (fun u => u.id == tid) s.transactions t hget2
  have hteq : t.id = tid := by simpa using hpred
  have htid : tid < s.nextTxnId := hteq ▸ hfresh t htmem
  rw [show (2 : Nat) = 1 + 1 from rfl] at hrun
  cases hcalc : BalanceService.calculate_balances_for_transaction s
      t.account_id t.transaction_type t.amount t.user_id with
  | error e =>
      simp only [BalanceService.process_transaction_balances, hget, hcalc] at hrun
      injection hrun with h1 h2
      exact Except.noConfusion h2
  | ok q =>
      obtain ⟨lb, la, ib, ia⟩ := q
      simp only [BalanceService.process_transaction_balances, hget, hcalc] at hrun
      injection hrun with h1 h2
      injection h2 with h2
      subst h2
      refine ⟨rfl, ?_⟩
      subst h1
      have hfresh3 : TxnIdsFresh
          (TransactionDB.mark_transaction_completed
            (BalanceService.update_account_balances
              (TransactionDB.update_transaction_balances s tid
                (some lb) (some la) (some ib) (some ia)) t.account_id la ia) tid) := by
        apply txnIdsFresh_mark_completed
        exact txnIdsFresh_update_account_balances _ _ _ _
          (txnIdsFresh_update_transaction_balances s tid _ _ _ _ hfresh)
      by_cases hguard :
          (BalanceService.mirrored_transaction_types.contains t.transaction_type
            && t.user_id != "organization") = true
      · rw [if_pos hguard]
        have hpres : TransactionDB.get_transaction_by_id
            (BalanceService.create_opposite_core
              (fun a b => BalanceService.process_transaction_balances 1 a b)
              (TransactionDB.mark_transaction_completed
                (BalanceService.update_account_balances
                  (TransactionDB.update_transaction_balances s tid
                    (some lb) (some la) (some ib) (some ia)) t.account_id la ia) tid)
              tid t.account_id t.user_id t.transaction_type t.amount t.collateral_id).1 tid
            = TransactionDB.get_transaction_by_id
              (TransactionDB.mark_transaction_completed
                (BalanceService.update_account_balances
                  (TransactionDB.update_transaction_balances s tid
                    (some lb) (some la) (some ib) (some ia)) t.account_id la ia) tid) tid :=
          createOpp_one_getTxn_old _ tid t.account_id t.user_id t.transaction_type
            t.amount t.collateral_id tid hfresh3 htid
        exact hpres.trans (getTxn_after_record_complete s tid t lb la ib ia t.account_id hget)
      · rw [if_neg hguard]
        exact getTxn_after_record_complete s tid t lb la ib ia t.account_id hget

theorem process_getAcct_isSome (fuel : Nat) (s : DBState) (tid : Nat) (aid : String)
    (hsome : (AccountDB.get_account_by_id s aid).isSome) :
    (AccountDB.get_account_by_id
      (BalanceService.process_transaction_balances fuel s tid).1 aid).isSome := by
  induction fuel generalizing s tid with
  | zero => exact hsome
  | succ f ih =>
    cases hget : TransactionDB.get_transaction_by_id s tid with
    | none => simpa only [BalanceService.process_transaction_balances, hget] using hsome
    | some t =>
      cases hcalc : BalanceService.calculate_balances_for_transaction s
          t.account_id t.transaction_type t.amount t.user_id with
      | error e =>
          simpa only [BalanceService.process_transaction_balances, hget, hcalc] using hsome
      | ok q =>
        obtain ⟨lb, la, ib, ia⟩ := q
        simp only [BalanceService.process_transaction_balances, hget, hcalc]
        have hsome3 : (AccountDB.get_account_by_id
            (TransactionDB.mark_transaction_completed
              (BalanceService.update_account_balances
                (TransactionDB.update_transaction_balances s tid
                  (some lb) (some la) (some ib) (some ia)) t.account_id la ia) tid) aid).isSome := by
          show (AccountDB.get_account_by_id
            (AccountDB.update_account_balances _ t.account_id (some la) (some ia)) aid).isSome
          rw [getAcct_update_account_balances]
          simpa using hsome
        by_cases hguard :
            (BalanceService.mirrored_transaction_types.contains t.transaction_type
              && t.user_id != "organization") = true
        · rw [if_pos hguard]
          generalize hs3 : TransactionDB.mark_transaction_completed
              (BalanceService.update_account_balances
                (TransactionDB.update_transaction_balances s tid
                  (some lb) (some la) (some ib) (some ia)) t.account_id la ia) tid = s3 at hsome3
          cases horg : AccountDB.get_organization_account s3 with
          | none =>
              rw [createOppCore_none _ _ _ _ _ _ _ _ horg]
              exact hsome3
          | some org =>
              rw [createOppCore_some _ _ _ _ _ _ _ _ org horg]
              rcases hproc : BalanceService.process_transaction_balances f
                  (TransactionDB.create_transaction s3
                    (BalanceService.opposite_transaction_data org tid t.transaction_type
                      t.amount t.collateral_id)).1
                  (TransactionDB.create_transaction s3
                    (BalanceService.opposite_transaction_data org tid t.transaction_type
                      t.amount t.collateral_id)).2.id with ⟨s2, r⟩
              have hsome2 : (AccountDB.get_account_by_id s2 aid).isSome := by
                have h1 : s2 = (BalanceService.process_transaction_balances f
                    (TransactionDB.create_transaction s3
                      (BalanceService.opposite_transaction_data org tid t.transaction_type
                        t.amount t.collateral_id)).1
                    (TransactionDB.create_transaction s3
                      (BalanceService.opposite_transaction_data org tid t.transaction_type
                        t.amount t.collateral_id)).2.id).1 := by rw [hproc]
                rw [h1]
                exact ih _ _ hsome3
              cases r with
              | error e => exact hsome2
              | ok v => exact hsome2
        · rw [if_neg hguard]
          exact hsome3

theorem revert_eq_of_snapshot (s : DBState) (tid : Nat) (t : Transaction) (lb ib : Rat)
    (hget : TransactionDB.get_transaction_by_id s tid = some t)
    (hlb : t.loan_balance_before = some lb)
    (hib : t.invested_balance_before = some ib) :
    BalanceService.revert_transaction_balances s tid =
      (TransactionDB.mark_transaction_failed
        (BalanceService.update_account_balances s t.account_id lb ib) tid
        "Reverted due to Crossmint failure", .ok (lb, ib)) := by
  simp only [BalanceService.revert_transaction_balances, hget, hlb, hib]

/-! ## Claim theorems -/

/-! Concrete fixtures used by the witness theorems: one ordinary user with
an account, the organization account, and small stores built from them. -/

def acctU : Account :=
  { id := "acct-user", user_id := "u1", account_number := "ACC-1001"
    loan_balance := 100, investment_balance := 500 }

def acctOrg : Account :=
  { id := "acct-org", user_id := "organization", account_number := "ORG-0001"
    loan_balance := 0, investment_balance := 100000 }

def txnDeposit : Transaction :=
  { id := 0, account_id := "acct-user", user_id := "u1"
    transaction_type := .deposit, status := .pending, amount := 250
    reference_number := none, collateral_id := none
    loan_balance_before := none, loan_balance_after := none
    invested_balance_before := none, invested_balance_after := none
    failure_reason := none }

def stateC1 : DBState :=
  { accounts := [acctU, acctOrg], transactions := [txnDeposit]
    collaterals := [], users := ["u1", "organization"], nextTxnId := 1 }

/-- C1: for every transaction run to completion by
`BalanceService.process_transaction_balances`, the recorded snapshot obeys
the rule table for an ordinary (non-organization) owner: deposit and
interest add the amount to the investment balance, withdrawal and fee
subtract it, payment subtracts the amount from the loan balance,
loan_disbursement adds it, and in each case the balance field not named by
the rule has its before equal to its after.  The before-values are the
account's balances, and the snapshot is recorded on the now-completed
transaction. -/
theorem C1_completed_transaction_rule_table (s : DBState) (tid : Nat)
    (t : Transaction) (acct : Account) (s' : DBState) (r : BalanceResult)
    (hfresh : TxnIdsFresh s)
    (hget : TransactionDB.get_transaction_by_id s tid = some t)
    (hacct : AccountDB.get_account_by_id s t.account_id = some acct)
    (huser : t.user_id ≠ "organization")
    (hrun : BalanceService.processTransaction s tid = (s', .ok r)) :
    r.loan_balance_before = acct.loan_balance
    ∧ r.invested_balance_before = acct.investment_balance
    ∧ (match t.transaction_type with
       | .deposit =>
           r.invested_balance_after = r.invested_balance_before + t.amount
           ∧ r.loan_balance_after = r.loan_balance_before
       | .interest =>
           r.invested_balance_after = r.invested_balance_before + t.amount
           ∧ r.loan_balance_after = r.loan_balance_before
       | .withdrawal =>
           r.invested_balance_after = r.invested_balance_before - t.amount
           ∧ r.loan_balance_after = r.loan_balance_before
       | .fee =>
           r.invested_balance_after = r.invested_balance_before - t.amount
           ∧ r.loan_balance_after = r.loan_balance_before
       | .payment =>
           r.loan_balance_after = r.loan_balance_before - t.amount
           ∧ r.invested_balance_after = r.invested_balance_before
       | .loan_disbursement =>
           r.loan_balance_after = r.loan_balance_before + t.amount
           ∧ r.invested_balance_after = r.invested_balance_before)
    ∧ TransactionDB.get_transaction_by_id s' tid = some
        { t with
          status := .completed
          loan_balance_before := some r.loan_balance_before
          loan_balance_after := some r.loan_balance_after
          invested_balance_before := some r.invested_balance_before
          invested_balance_after := some r.invested_balance_after } := by
  obtain ⟨hcalc, hrec⟩ := process_two_ok s tid t s' r hfresh hget hrun
  have huser2 : (t.user_id == "organization") = false := by simpa using huser
  cases htype : t.transaction_type
  all_goals
    simp only [htype, BalanceService.calculate_balances_for_transaction, hacct, huser2] at hcalc
  all_goals rw [htype] at hrec
  case deposit =>
    simp only [Bool.false_eq_true, if_false, Except.ok.injEq, Prod.mk.injEq] at hcalc
    obtain ⟨e1, e2, e3, e4⟩ := hcalc
    exact ⟨e1.symm, e3.symm, ⟨by rw [← e4, ← e3], by rw [← e2, ← e1]⟩, hrec⟩
  case interest =>
    simp only [Bool.false_eq_true, if_false, Except.ok.injEq, Prod.mk.injEq] at hcalc
    obtain ⟨e1, e2, e3, e4⟩ := hcalc
    exact ⟨e1.symm, e3.symm, ⟨by rw [← e4, ← e3], by rw [← e2, ← e1]⟩, hrec⟩
  case withdrawal =>
    by_cases hlt : acct.investment_balance < t.amount
    · rw [if_pos hlt] at hcalc
      exact Except.noConfusion hcalc
    · rw [if_neg hlt] at hcalc
      simp only [Bool.false_eq_true, if_false, Except.ok.injEq, Prod.mk.injEq] at hcalc
      obtain ⟨e1, e2, e3, e4⟩ := hcalc
      exact ⟨e1.symm, e3.symm, ⟨by rw [← e4, ← e3], by rw [← e2, ← e1]⟩, hrec⟩
  case fee =>
    by_cases hlt : acct.investment_balance < t.amount
    · rw [if_pos hlt] at hcalc
      exact Except.noConfusion hcalc
    · rw [if_neg hlt] at hcalc
      simp only [Bool.false_eq_true, if_false, Except.ok.injEq, Prod.mk.injEq] at hcalc
      obtain ⟨e1, e2, e3, e4⟩ := hcalc
      exact ⟨e1.symm, e3.symm, ⟨by rw [← e4, ← e3], by rw [← e2, ← e1]⟩, hrec⟩
  case payment =>
    by_cases hlt : acct.loan_balance < t.amount
    · rw [if_pos hlt] at hcalc
      exact Except.noConfusion hcalc
    · rw [if_neg hlt] at hcalc
      obtain ⟨e1, e2, e3, e4⟩ : _ ∧ _ ∧ _ ∧ _ := by
        simpa only [Bool.false_eq_true, if_false, Except.ok.injEq, Prod.mk.injEq] using hcalc
      exact ⟨e1.symm, e3.symm, ⟨by rw [← e2, ← e1], by rw [← e4, ← e3]⟩, hrec⟩
  case loan_disbursement =>
    obtain ⟨e1, e2, e3, e4⟩ : _ ∧ _ ∧ _ ∧ _ := by
      simpa only [Bool.false_eq_true, if_false, Except.ok.injEq, Prod.mk.injEq] using hcalc
    exact ⟨e1.symm, e3.symm, ⟨by rw [← e2, ← e1], by rw [← e4, ← e3]⟩, hrec⟩

/-- Witness for C1: a $250 deposit into an account holding (loan 100,
investment 500) records before (100, 500) and after (100, 750), and the
transaction ends completed with that snapshot. -/
theorem C1_completed_transaction_rule_table_witness :
    (⟨100, 100, 500, 750⟩ : BalanceResult).loan_balance_before = acctU.loan_balance
    ∧ (⟨100, 100, 500, 750⟩ : BalanceResult).invested_balance_before = acctU.investment_balance
    ∧ ((⟨100, 100, 500, 750⟩ : BalanceResult).invested_balance_after
          = (⟨100, 100, 500, 750⟩ : BalanceResult).invested_balance_before + txnDeposit.amount
        ∧ (⟨100, 100, 500, 750⟩ : BalanceResult).loan_balance_after
          = (⟨100, 100, 500, 750⟩ : BalanceResult).loan_balance_before)
    ∧ TransactionDB.get_transaction_by_id (BalanceService.processTransaction stateC1 0).1 0 = some
        { txnDeposit with
          status := .completed
          loan_balance_before := some 100
          loan_balance_after := some 100
          invested_balance_before := some 500
          invested_balance_after := some 750 } :=
  C1_completed_transaction_rule_table stateC1 0 txnDeposit acctU
    (BalanceService.processTransaction stateC1 0).1 ⟨100, 100, 500, 750⟩
    (by decide) (by decide) (by decide) (by decide) (by decide)

/-- C2: when `process_transaction_balances` completes a transaction of a
non-organization owner whose type is deposit, withdrawal, loan_disbursement,
payment or fee (and the organization account exists), exactly one mirrored
transaction is created: the store grows by one transaction, and the new
transaction (at the fresh id) is owned by `"organization"`, targets the
organization account, has the same amount, `reference_number` equal to the
original transaction's id, and the opposite type (deposit→deposit,
withdrawal→withdrawal, loan_disbursement→withdrawal, payment→deposit,
fee→interest).  A transaction owned by the organization is never mirrored:
processing it creates no transaction. -/
theorem C2_mirrored_transaction_exactly_once (s : DBState) (tid : Nat)
    (t : Transaction) (s' : DBState) (r : BalanceResult)
    (hfresh : TxnIdsFresh s)
    (hget : TransactionDB.get_transaction_by_id s tid = some t)
    (hrun : BalanceService.processTransaction s tid = (s', .ok r)) :
    (∀ org : Account, AccountDB.get_organization_account s = some org →
      t.user_id ≠ "organization" →
      t.transaction_type ∈ BalanceService.mirrored_transaction_types →
      s'.transactions.length = s.transactions.length + 1
      ∧ ∃ m : Transaction,
          TransactionDB.get_transaction_by_id s' s.nextTxnId = some m
          ∧ m.user_id = "organization"
          ∧ m.account_id = org.id
          ∧ m.amount = t.amount
          ∧ m.reference_number = some (toString tid)
          ∧ m.transaction_type =
              (match t.transaction_type with
               | .deposit => .deposit
               | .withdrawal => .withdrawal
               | .loan_disbursement => .withdrawal
               | .payment => .deposit
               | .fee => .interest
               | .interest => .fee))
    ∧ (t.user_id = "organization" →
        s'.transactions.length = s.transactions.length) := by
  rw [show BalanceService.processTransaction s tid
      = BalanceService.process_transaction_balances (1 + 1) s tid from rfl] at hrun
  cases hcalc : BalanceService.calculate_balances_for_transaction s
      t.account_id t.transaction_type t.amount t.user_id with
  | error e =>
      simp only [BalanceService.process_transaction_balances, hget, hcalc] at hrun
      injection hrun with h1 h2
      exact Except.noConfusion h2
  | ok q =>
    obtain ⟨lb, la, ib, ia⟩ := q
    simp only [BalanceService.process_transaction_balances, hget, hcalc] at hrun
    injection hrun with h1 h2
    have hlen3 : (TransactionDB.mark_transaction_completed
        (BalanceService.update_account_balances
          (TransactionDB.update_transaction_balances s tid
            (some lb) (some la) (some ib) (some ia)) t.account_id la ia)
        tid).transactions.length = s.transactions.length := by
      simp [TransactionDB.mark_transaction_completed,
        TransactionDB.update_transaction_balances, AccountDB.update_account_balances,
        BalanceService.update_account_balances]
    have hfresh3 : TxnIdsFresh
        (TransactionDB.mark_transaction_completed
          (BalanceService.update_account_balances
            (TransactionDB.update_transaction_balances s tid
              (some lb) (some la) (some ib) (some ia)) t.account_id la ia) tid) := by
      apply txnIdsFresh_mark_completed
      exact txnIdsFresh_update_account_balances _ _ _ _
        (txnIdsFresh_update_transaction_balances s tid _ _ _ _ hfresh)
    constructor
    · intro org horg huser hmem
      have hcont : BalanceService.mirrored_transaction_types.contains t.transaction_type = true := by
        cases hmem2 : t.transaction_type <;> rw [hmem2] at hmem <;> simp_all [BalanceService.mirrored_transaction_types]
      have hguard : (BalanceService.mirrored_transaction_types.contains t.transaction_type
          && t.user_id != "organization") = true := by
        rw [Bool.and_eq_true]
        exact ⟨hcont, by simpa using huser⟩
      rw [if_pos hguard] at h1
      subst h1
      have horg3 : AccountDB.get_organization_account
          (TransactionDB.mark_transaction_completed
            (BalanceService.update_account_balances
              (TransactionDB.update_transaction_balances s tid
                (some lb) (some la) (some ib) (some ia)) t.account_id la ia) tid)
          = some (if org.id == t.account_id then
              { org with loan_balance := (some la).getD org.loan_balance
                         investment_balance := (some ia).getD org.investment_balance }
            else org) := by
        show AccountDB.get_organization_account
          (AccountDB.update_account_balances _ t.account_id (some la) (some ia)) = _
        rw [getOrg_update_account_balances]
        have horg1 : AccountDB.get_organization_account
            (TransactionDB.update_transaction_balances s tid
              (some lb) (some la) (some ib) (some ia)) = some org := horg
        rw [horg1]
        rfl
      obtain ⟨m, hm, haccid, husr, hty, hamt, href⟩ :=
        createOpp_one_mirror _ tid t.account_id t.user_id t.transaction_type t.amount
          t.collateral_id _ hfresh3 horg3
      refine ⟨?_, m, hm, husr, ?_, hamt, href, ?_⟩
      · exact (createOpp_one_txns_length _ tid t.account_id t.user_id t.transaction_type
          t.amount t.collateral_id _ hfresh3 horg3).trans (by rw [hlen3])
      · rw [haccid]
        by_cases h : (org.id == t.account_id) = true <;> simp [h]
      · rw [hty]
        cases t.transaction_type <;> rfl
    · intro huser
      have hguard : (BalanceService.mirrored_transaction_types.contains t.transaction_type
          && t.user_id != "organization") = false := by
        rw [huser]
        simp
      rw [if_neg ?_] at h1
      · subst h1
        exact hlen3
      · rw [hguard]
        simp

/-- Witness for C2: processing the $250 user deposit in `stateC1` adds
exactly one transaction — the organization mirror at the fresh id 1 — with
amount 250, reference "0" and type deposit; an organization-owned
transaction would add none. -/
theorem C2_mirrored_transaction_exactly_once_witness :
    (∀ org : Account, AccountDB.get_organization_account stateC1 = some org →
      txnDeposit.user_id ≠ "organization" →
      txnDeposit.transaction_type ∈ BalanceService.mirrored_transaction_types →
      (BalanceService.processTransaction stateC1 0).1.transactions.length
          = stateC1.transactions.length + 1
      ∧ ∃ m : Transaction,
          TransactionDB.get_transaction_by_id
              (BalanceService.processTransaction stateC1 0).1 stateC1.nextTxnId = some m
          ∧ m.user_id = "organization"
          ∧ m.account_id = org.id
          ∧ m.amount = txnDeposit.amount
          ∧ m.reference_number = some (toString 0)
          ∧ m.transaction_type = TransactionType.deposit)
    ∧ (txnDeposit.user_id = "organization" →
        (BalanceService.processTransaction stateC1 0).1.transactions.length
          = stateC1.transactions.length) :=
  C2_mirrored_transaction_exactly_once stateC1 0 txnDeposit
    (BalanceService.processTransaction stateC1 0).1 ⟨100, 100, 500, 750⟩
    (by decide) (by decide) (by decide)

theorem process_succ_ok_shape (f : Nat) (s : DBState) (tid : Nat) (t : Transaction)
    (lb la ib ia : Rat)
    (hget : TransactionDB.get_transaction_by_id s tid = some t)
    (hcalc : BalanceService.calculate_balances_for_transaction s
      t.account_id t.transaction_type t.amount t.user_id = .ok (lb, la, ib, ia)) :
    (BalanceService.process_transaction_balances (f + 1) s tid).2 = .ok ⟨lb, la, ib, ia⟩ := by
  simp only [BalanceService.process_transaction_balances, hget, hcalc]

def gwDown : CrossmintResult := { error := true, message := "gateway down" }

def wreqC3 : MoneyRequest :=
  { account_id := "acct-user", user_id := "u1", amount := 100
    reference_number := none, collateral_id := none }

def stateBase : DBState :=
  { accounts := [acctU, acctOrg], transactions := []
    collaterals := [], users := ["u1", "organization"], nextTxnId := 0 }

/-- Counterexample to C3 as stated: a withdrawal of $100 commits its balance
changes, then the Settlement Gateway returns an `{error}` result — yet
`revert_transaction_balances` is never invoked: the route returns success,
the transaction stays `completed` (never `failed`), and the account keeps
the debited balance 400 instead of being restored to 500. -/
theorem C3_counterexample_withdrawal_ignores_gateway_error :
    gwDown.error = true
    ∧ ((Routes.withdraw_money stateBase wreqC3 gwDown).2).isOk = true
    ∧ (TransactionDB.get_transaction_by_id
          (Routes.withdraw_money stateBase wreqC3 gwDown).1 0).map
          Transaction.status = some .completed
    ∧ some TransactionStatus.completed ≠ some TransactionStatus.failed
    ∧ (AccountDB.get_account_by_id
          (Routes.withdraw_money stateBase wreqC3 gwDown).1 "acct-user").map
          Account.investment_balance = some 400
    ∧ (400 : Rat) ≠ 500 := by
  refine ⟨rfl, by decide, by decide, by decide, by decide, by decide⟩

/-- C3 amended: only the deposit route consumes the Settlement Gateway
result.  On a gateway `{error}` after the balance changes were committed,
`deposit_money` invokes `revert_transaction_balances`: it returns a 400
error carrying the gateway message, the transaction ends `failed` with that
failure reason stored, and the account's balances are restored to the
transaction's recorded before-values (its original balances).  The
withdrawal and payment routes ignore the gateway result entirely — their
outcome does not depend on it — so no revert happens there. -/
theorem C3_amended_only_deposit_route_reverts (s : DBState) (req : MoneyRequest)
    (gw : CrossmintResult) (acct : Account)
    (hfresh : TxnIdsFresh s)
    (hacct : AccountDB.get_account_by_id s req.account_id = some acct)
    (hcont : s.users.contains req.user_id = true)
    (hgw : gw.error = true) :
    (∃ s' : DBState,
        Routes.deposit_money s req gw
          = (s', .error ⟨400, "Crossmint transfer failed: " ++ gw.message⟩)
        ∧ (∃ t' : Transaction,
            TransactionDB.get_transaction_by_id s' s.nextTxnId = some t'
            ∧ t'.status = .failed
            ∧ t'.failure_reason = some ("Crossmint transfer failed: " ++ gw.message))
        ∧ (∃ a' : Account,
            AccountDB.get_account_by_id s' req.account_id = some a'
            ∧ a'.loan_balance = acct.loan_balance
            ∧ a'.investment_balance = acct.investment_balance))
    ∧ (∀ g1 g2 : CrossmintResult,
        Routes.withdraw_money s req g1 = Routes.withdraw_money s req g2
        ∧ Routes.pay_loan s req g1 = Routes.pay_loan s req g2) := by
  constructor
  · set d : TransactionCreate :=
      { account_id := req.account_id
        user_id := req.user_id
        transaction_type := .deposit
        amount := req.amount
        reference_number := req.reference_number
        collateral_id := none } with hd
    set nid := s.nextTxnId with hnid
    have hfresh1 : TxnIdsFresh (TransactionDB.create_transaction s d).1 :=
      txnIdsFresh_create s d hfresh
    have hget1 : TransactionDB.get_transaction_by_id
        (TransactionDB.create_transaction s d).1 nid
        = some (TransactionDB.create_transaction s d).2 :=
      getTxn_create_new s d hfresh
    have hcalc1 : BalanceService.calculate_balances_for_transaction
        (TransactionDB.create_transaction s d).1
        (TransactionDB.create_transaction s d).2.account_id
        (TransactionDB.create_transaction s d).2.transaction_type
        (TransactionDB.create_transaction s d).2.amount
        (TransactionDB.create_transaction s d).2.user_id
        = .ok (acct.loan_balance,
            if req.user_id == "organization" then (0 : Rat) else acct.loan_balance,
            acct.investment_balance,
            acct.investment_balance + req.amount) := by
      show BalanceService.calculate_balances_for_transaction
        (TransactionDB.create_transaction s d).1 req.account_id
        .deposit req.amount req.user_id = _
      simp only [BalanceService.calculate_balances_for_transaction]
      rw [show AccountDB.get_account_by_id
        (TransactionDB.create_transaction s d).1 req.account_id = some acct from hacct]
    rcases hproc : BalanceService.processTransaction
        (TransactionDB.create_transaction s d).1 nid with ⟨s2, pr⟩
    have hshape : pr = .ok ⟨acct.loan_balance,
        if req.user_id == "organization" then (0 : Rat) else acct.loan_balance,
        acct.investment_balance,
        acct.investment_balance + req.amount⟩ := by
      have h := process_succ_ok_shape 1 (TransactionDB.create_transaction s d).1 nid
        (TransactionDB.create_transaction s d).2 _ _ _ _ hget1 hcalc1
      rw [show BalanceService.process_transaction_balances (1 + 1)
        (TransactionDB.create_transaction s d).1 nid = (s2, pr) from hproc] at h
      exact h
    subst hshape
    obtain ⟨hcalc2, hrec⟩ := process_two_ok (TransactionDB.create_transaction s d).1 nid
      (TransactionDB.create_transaction s d).2 s2 _ hfresh1 hget1 hproc
    have hrev := revert_eq_of_snapshot s2 nid _ acct.loan_balance acct.investment_balance
      hrec rfl rfl
    have hroute : Routes.deposit_money s req gw
        = (TransactionDB.mark_transaction_failed
            (TransactionDB.mark_transaction_failed
              (BalanceService.update_account_balances s2 req.account_id
                acct.loan_balance acct.investment_balance)
              nid "Reverted due to Crossmint failure")
            nid ("Crossmint transfer failed: " ++ gw.message),
          .error ⟨400, "Crossmint transfer failed: " ++ gw.message⟩) := by
      simp only [Routes.deposit_money, UserDB.get_user_by_id]
      rw [hacct, hcont, ← hd]
      rw [show (TransactionDB.create_transaction s d).2.id = nid from rfl]
      rw [hproc, hgw]
      dsimp only
      rw [hrev]
      rfl
    refine ⟨_, hroute, ?_, ?_⟩
    · have ht3 := getTxn_self_of_map
        (BalanceService.update_account_balances s2 req.account_id
          acct.loan_balance acct.investment_balance) _ nid _ _
        (getTxn_mark_failed _ nid nid "Reverted due to Crossmint failure")
        (show TransactionDB.get_transaction_by_id
          (BalanceService.update_account_balances s2 req.account_id
            acct.loan_balance acct.investment_balance) nid = _ from hrec)
      have ht4 := getTxn_self_of_map _ _ nid _ _
        (getTxn_mark_failed _ nid nid ("Crossmint transfer failed: " ++ gw.message)) ht3
      exact ⟨_, ht4, rfl, rfl⟩
    · have hsome : (AccountDB.get_account_by_id s2 req.account_id).isSome := by
        have h0 : (AccountDB.get_account_by_id
            (TransactionDB.create_transaction s d).1 req.account_id).isSome := by
          show (AccountDB.get_account_by_id s req.account_id).isSome
          rw [hacct]
          rfl
        have h := process_getAcct_isSome 2 (TransactionDB.create_transaction s d).1 nid
          req.account_id h0
        rw [show (BalanceService.process_transaction_balances 2
          (TransactionDB.create_transaction s d).1 nid) = (s2, _) from hproc] at h
        exact h
      obtain ⟨a2, ha2⟩ := Option.isSome_iff_exists.mp hsome
      exact ⟨_, getAcct_update_self s2 req.account_id acct.loan_balance
        acct.investment_balance a2 ha2, rfl, rfl⟩
  · intro g1 g2
    exact ⟨rfl, rfl⟩

/-- Witness for the amended C3: a $100 deposit into `stateBase` with a
failing gateway is reverted and reported as a 400, while withdrawal and
payment ignore the gateway outcome. -/
theorem C3_amended_only_deposit_route_reverts_witness :
    (∃ s' : DBState,
        Routes.deposit_money stateBase wreqC3 gwDown
          = (s', .error ⟨400, "Crossmint transfer failed: " ++ gwDown.message⟩)
        ∧ (∃ t' : Transaction,
            TransactionDB.get_transaction_by_id s' stateBase.nextTxnId = some t'
            ∧ t'.status = .failed
            ∧ t'.failure_reason = some ("Crossmint transfer failed: " ++ gwDown.message))
        ∧ (∃ a' : Account,
            AccountDB.get_account_by_id s' wreqC3.account_id = some a'
            ∧ a'.loan_balance = acctU.loan_balance
            ∧ a'.investment_balance = acctU.investment_balance))
    ∧ (∀ g1 g2 : CrossmintResult,
        Routes.withdraw_money stateBase wreqC3 g1 = Routes.withdraw_money stateBase wreqC3 g2
        ∧ Routes.pay_loan stateBase wreqC3 g1 = Routes.pay_loan stateBase wreqC3 g2) :=
  C3_amended_only_deposit_route_reverts stateBase wreqC3 gwDown acctU
    (by decide) (by decide) (by decide) (by decide)

/-- C4: a withdrawal, payment or fee of an ordinary user whose amount
exceeds the available balance (investment balance for withdrawal and fee,
loan balance for payment) fails: `process_transaction_balances` returns the
insufficiency error carrying the available and required amounts and leaves
the store completely unchanged (no balance mutation, no snapshot written);
and the withdrawal and payment routes then mark the created transaction
`failed` (with no snapshot recorded) while the accounts stay untouched. -/
theorem C4_insufficient_balance_rejected (s : DBState) (tid : Nat)
    (t : Transaction) (acct : Account)
    (hfresh : TxnIdsFresh s)
    (hget : TransactionDB.get_transaction_by_id s tid = some t)
    (hacct : AccountDB.get_account_by_id s t.account_id = some acct)
    (huser : t.user_id ≠ "organization")
    (hins : (t.transaction_type = .withdrawal ∧ acct.investment_balance < t.amount)
      ∨ (t.transaction_type = .fee ∧ acct.investment_balance < t.amount)
      ∨ (t.transaction_type = .payment ∧ acct.loan_balance < t.amount)) :
    BalanceService.processTransaction s tid
      = (s, .error (match t.transaction_type with
          | .payment => .insufficientLoan acct.loan_balance t.amount
          | .fee => .insufficientInvestmentFee acct.investment_balance t.amount
          | _ => .insufficientInvestment acct.investment_balance t.amount))
    ∧ (∀ (req : MoneyRequest) (g : CrossmintResult) (ar : Account),
        AccountDB.get_account_by_id s req.account_id = some ar →
        s.users.contains req.user_id = true →
        ar.investment_balance < req.amount →
        ∃ s' : DBState,
          Routes.withdraw_money s req g = (s', .error ⟨400,
            BalanceError.toMessage
              (.insufficientInvestment ar.investment_balance req.amount)⟩)
          ∧ (∃ t' : Transaction,
              TransactionDB.get_transaction_by_id s' s.nextTxnId = some t'
              ∧ t'.status = .failed
              ∧ t'.failure_reason = some (BalanceError.toMessage
                  (.insufficientInvestment ar.investment_balance req.amount))
              ∧ t'.loan_balance_before = none
              ∧ t'.invested_balance_before = none)
          ∧ s'.accounts = s.accounts)
    ∧ (∀ (req : MoneyRequest) (g : CrossmintResult) (ar : Account),
        AccountDB.get_account_by_id s req.account_id = some ar →
        s.users.contains req.user_id = true →
        ar.loan_balance < req.amount →
        req.user_id ≠ "organization" →
        ∃ s' : DBState,
          Routes.pay_loan s req g = (s', .error ⟨400,
            BalanceError.toMessage (.insufficientLoan ar.loan_balance req.amount)⟩)
          ∧ (∃ t' : Transaction,
              TransactionDB.get_transaction_by_id s' s.nextTxnId = some t'
              ∧ t'.status = .failed
              ∧ t'.failure_reason = some (BalanceError.toMessage
                  (.insufficientLoan ar.loan_balance req.amount))
              ∧ t'.loan_balance_before = none
              ∧ t'.invested_balance_before = none)
          ∧ s'.accounts = s.accounts) := by
  refine ⟨?_, ?_, ?_⟩
  · have huser2 : (t.user_id == "organization") = false := by simpa using huser
    have hcalc : BalanceService.calculate_balances_for_transaction s
        t.account_id t.transaction_type t.amount t.user_id
        = .error (match t.transaction_type with
            | .payment => .insufficientLoan acct.loan_balance t.amount
            | .fee => .insufficientInvestmentFee acct.investment_balance t.amount
            | _ => .insufficientInvestment acct.investment_balance t.amount) := by
      rcases hins with ⟨hty, hlt⟩ | ⟨hty, hlt⟩ | ⟨hty, hlt⟩ <;>
        rw [hty] <;>
        simp only [BalanceService.calculate_balances_for_transaction, hacct, huser2,
          Bool.false_eq_true, if_false] <;>
        rw [if_pos hlt]
    rw [show BalanceService.processTransaction s tid
      = BalanceService.process_transaction_balances (1 + 1) s tid from rfl]
    simp only [BalanceService.process_transaction_balances, hget, hcalc]
  · intro req g ar har hcont hlt
    set d : TransactionCreate :=
      { account_id := req.account_id
        user_id := req.user_id
        transaction_type := .withdrawal
        amount := req.amount
        reference_number := req.reference_number
        collateral_id := none } with hd
    have hget1 : TransactionDB.get_transaction_by_id
        (TransactionDB.create_transaction s d).1 s.nextTxnId
        = some (TransactionDB.create_transaction s d).2 :=
      getTxn_create_new s d hfresh
    have hcalc1 : BalanceService.calculate_balances_for_transaction
        (TransactionDB.create_transaction s d).1
        (TransactionDB.create_transaction s d).2.account_id
        (TransactionDB.create_transaction s d).2.transaction_type
        (TransactionDB.create_transaction s d).2.amount
        (TransactionDB.create_transaction s d).2.user_id
        = .error (.insufficientInvestment ar.investment_balance req.amount) := by
      show BalanceService.calculate_balances_for_transaction
        (TransactionDB.create_transaction s d).1 req.account_id
        .withdrawal req.amount req.user_id = _
      simp only [BalanceService.calculate_balances_for_transaction]
      rw [show AccountDB.get_account_by_id
        (TransactionDB.create_transaction s d).1 req.account_id = some ar from har]
      dsimp only
      rw [if_pos hlt]
    have hproc : BalanceService.processTransaction
        (TransactionDB.create_transaction s d).1 s.nextTxnId
        = ((TransactionDB.create_transaction s d).1,
            .error (.insufficientInvestment ar.investment_balance req.amount)) := by
      rw [show BalanceService.processTransaction
          (TransactionDB.create_transaction s d).1 s.nextTxnId
        = BalanceService.process_transaction_balances (1 + 1)
          (TransactionDB.create_transaction s d).1 s.nextTxnId from rfl]
      simp only [BalanceService.process_transaction_balances, hget1, hcalc1]
    have hroute : Routes.withdraw_money s req g
        = (TransactionDB.mark_transaction_failed
            (TransactionDB.create_transaction s d).1 s.nextTxnId
            (BalanceError.toMessage
              (.insufficientInvestment ar.investment_balance req.amount)),
          .error ⟨400, BalanceError.toMessage
            (.insufficientInvestment ar.investment_balance req.amount)⟩) := by
      simp only [Routes.withdraw_money, UserDB.get_user_by_id]
      rw [har, hcont, ← hd]
      rw [show (TransactionDB.create_transaction s d).2.id = s.nextTxnId from rfl]
      rw [hproc]
      rfl
    have ht' := getTxn_self_of_map (TransactionDB.create_transaction s d).1 _
      s.nextTxnId _ _
      (getTxn_mark_failed (TransactionDB.create_transaction s d).1 s.nextTxnId s.nextTxnId
        (BalanceError.toMessage (.insufficientInvestment ar.investment_balance req.amount)))
      hget1
    exact ⟨_, hroute, ⟨_, ht', rfl, rfl, rfl, rfl⟩, rfl⟩
  · intro req g ar har hcont hlt huserr
    set d : TransactionCreate :=
      { account_id := req.account_id
        user_id := req.user_id
        transaction_type := .payment
        amount := req.amount
        reference_number := req.reference_number
        collateral_id := req.collateral_id } with hd
    have huser2 : (req.user_id == "organization") = false := by simpa using huserr
    have hget1 : TransactionDB.get_transaction_by_id
        (TransactionDB.create_transaction s d).1 s.nextTxnId
        = some (TransactionDB.create_transaction s d).2 :=
      getTxn_create_new s d hfresh
    have hcalc1 : BalanceService.calculate_balances_for_transaction
        (TransactionDB.create_transaction s d).1
        (TransactionDB.create_transaction s d).2.account_id
        (TransactionDB.create_transaction s d).2.transaction_type
        (TransactionDB.create_transaction s d).2.amount
        (TransactionDB.create_transaction s d).2.user_id
        = .error (.insufficientLoan ar.loan_balance req.amount) := by
      show BalanceService.calculate_balances_for_transaction
        (TransactionDB.create_transaction s d).1 req.account_id
        .payment req.amount req.user_id = _
      simp only [BalanceService.calculate_balances_for_transaction]
      rw [show AccountDB.get_account_by_id
        (TransactionDB.create_transaction s d).1 req.account_id = some ar from har]
      dsimp only
      simp only [huser2, Bool.false_eq_true, if_false]
      rw [if_pos hlt]
    have hproc : BalanceService.processTransaction
        (TransactionDB.create_transaction s d).1 s.nextTxnId
        = ((TransactionDB.create_transaction s d).1,
            .error (.insufficientLoan ar.loan_balance req.amount)) := by
      rw [show BalanceService.processTransaction
          (TransactionDB.create_transaction s d).1 s.nextTxnId
        = BalanceService.process_transaction_balances (1 + 1)
          (TransactionDB.create_transaction s d).1 s.nextTxnId from rfl]
      simp only [BalanceService.process_transaction_balances, hget1, hcalc1]
    have hroute : Routes.pay_loan s req g
        = (TransactionDB.mark_transaction_failed
            (TransactionDB.create_transaction s d).1 s.nextTxnId
            (BalanceError.toMessage (.insufficientLoan ar.loan_balance req.amount)),
          .error ⟨400, BalanceError.toMessage
            (.insufficientLoan ar.loan_balance req.amount)⟩) := by
      simp only [Routes.pay_loan, UserDB.get_user_by_id]
      rw [har, hcont, ← hd]
      rw [show (TransactionDB.create_transaction s d).2.id = s.nextTxnId from rfl]
      rw [hproc]
      rfl
    have ht' := getTxn_self_of_map (TransactionDB.create_transaction s d).1 _
      s.nextTxnId _ _
      (getTxn_mark_failed (TransactionDB.create_transaction s d).1 s.nextTxnId s.nextTxnId
        (BalanceError.toMessage (.insufficientLoan ar.loan_balance req.amount)))
      hget1
    exact ⟨_, hroute, ⟨_, ht', rfl, rfl, rfl, rfl⟩, rfl⟩

def txnBigWithdrawal : Transaction :=
  { id := 0, account_id := "acct-user", user_id := "u1"
    transaction_type := .withdrawal, status := .pending, amount := 600
    reference_number := none, collateral_id := none
    loan_balance_before := none, loan_balance_after := none
    invested_balance_before := none, invested_balance_after := none
    failure_reason := none }

def stateC4 : DBState :=
  { accounts := [acctU, acctOrg], transactions := [txnBigWithdrawal]
    collaterals := [], users := ["u1", "organization"], nextTxnId := 1 }

/-- Witness for C4: withdrawing 600 from an account holding 500 fails with
the insufficiency error carrying available 500 and required 600, leaves the
store untouched, and the routes mark such transactions failed. -/
theorem C4_insufficient_balance_rejected_witness :
    BalanceService.processTransaction stateC4 0
      = (stateC4, .error (.insufficientInvestment acctU.investment_balance
          txnBigWithdrawal.amount))
    ∧ (∀ (req : MoneyRequest) (g : CrossmintResult) (ar : Account),
        AccountDB.get_account_by_id stateC4 req.account_id = some ar →
        stateC4.users.contains req.user_id = true →
        ar.investment_balance < req.amount →
        ∃ s' : DBState,
          Routes.withdraw_money stateC4 req g = (s', .error ⟨400,
            BalanceError.toMessage
              (.insufficientInvestment ar.investment_balance req.amount)⟩)
          ∧ (∃ t' : Transaction,
              TransactionDB.get_transaction_by_id s' stateC4.nextTxnId = some t'
              ∧ t'.status = .failed
              ∧ t'.failure_reason = some (BalanceError.toMessage
                  (.insufficientInvestment ar.investment_balance req.amount))
              ∧ t'.loan_balance_before = none
              ∧ t'.invested_balance_before = none)
          ∧ s'.accounts = stateC4.accounts)
    ∧ (∀ (req : MoneyRequest) (g : CrossmintResult) (ar : Account),
        AccountDB.get_account_by_id stateC4 req.account_id = some ar →
        stateC4.users.contains req.user_id = true →
        ar.loan_balance < req.amount →
        req.user_id ≠ "organization" →
        ∃ s' : DBState,
          Routes.pay_loan stateC4 req g = (s', .error ⟨400,
            BalanceError.toMessage (.insufficientLoan ar.loan_balance req.amount)⟩)
          ∧ (∃ t' : Transaction,
              TransactionDB.get_transaction_by_id s' stateC4.nextTxnId = some t'
              ∧ t'.status = .failed
              ∧ t'.failure_reason = some (BalanceError.toMessage
                  (.insufficientLoan ar.loan_balance req.amount))
              ∧ t'.loan_balance_before = none
              ∧ t'.invested_balance_before = none)
          ∧ s'.accounts = stateC4.accounts) :=
  C4_insufficient_balance_rejected stateC4 0 txnBigWithdrawal acctU
    (by decide) (by decide) (by decide) (by decide)
    (Or.inl ⟨by decide, by decide⟩)

/-- Counterexample to C5 as stated: the Account Store does not reject an
update that drives a balance below zero.  `update_account_balances` with
loan balance −5 succeeds and the stored loan balance is −5 < 0. -/
theorem C5_counterexample_store_accepts_negative :
    (AccountDB.get_account_by_id
        (AccountDB.update_account_balances stateBase "acct-user" (some (-5)) none)
        "acct-user").map Account.loan_balance = some (-5)
    ∧ (-5 : Rat) < 0 := by
  exact ⟨by decide, by decide⟩

/-- C5 amended: non-negativity is maintained by the Balance Calculator, not
by the Account Store.  Any successful `calculate_balances_for_transaction`
from non-negative balances with a non-negative amount yields non-negative
after-balances, and an organization-owned result always has loan balance
exactly zero; the Account Store itself applies every update unconditionally
— including one with a negative balance — with no check of any kind. -/
theorem C5_amended_nonnegativity_from_calculator (s : DBState) (aid : String)
    (ty : TransactionType) (amount : Rat) (uid : String) (acct : Account)
    (lb la ib ia : Rat)
    (hacct : AccountDB.get_account_by_id s aid = some acct)
    (hlb : 0 ≤ acct.loan_balance) (hib : 0 ≤ acct.investment_balance)
    (hamt : 0 ≤ amount)
    (hcalc : BalanceService.calculate_balances_for_transaction s aid ty amount uid
      = .ok (lb, la, ib, ia)) :
    (0 ≤ la ∧ 0 ≤ ia)
    ∧ (uid = "organization" → la = 0)
    ∧ (∀ (l i : Rat) (a : Account), AccountDB.get_account_by_id s aid = some a →
        AccountDB.get_account_by_id
            (AccountDB.update_account_balances s aid (some l) (some i)) aid
          = some { a with loan_balance := l, investment_balance := i }) := by
  simp only [BalanceService.calculate_balances_for_transaction, hacct] at hcalc
  refine ⟨?_, ?_, fun l i a ha => getAcct_update_self s aid l i a ha⟩
  · cases ty
    all_goals dsimp only at hcalc
    case deposit =>
        obtain ⟨e1, e2, e3, e4⟩ : _ ∧ _ ∧ _ ∧ _ := by
          simpa only [Except.ok.injEq, Prod.mk.injEq] using hcalc
        refine ⟨?_, ?_⟩
        · rw [← e2]
          split
          · exact le_refl 0
          · exact hlb
        · rw [← e4]
          exact add_nonneg hib hamt
    case interest =>
        obtain ⟨e1, e2, e3, e4⟩ : _ ∧ _ ∧ _ ∧ _ := by
          simpa only [Except.ok.injEq, Prod.mk.injEq] using hcalc
        refine ⟨?_, ?_⟩
        · rw [← e2]
          split
          · exact le_refl 0
          · exact hlb
        · rw [← e4]
          exact add_nonneg hib hamt
    case withdrawal =>
        by_cases hlt : acct.investment_balance < amount
        · rw [if_pos hlt] at hcalc
          exact Except.noConfusion hcalc
        · rw [if_neg hlt] at hcalc
          obtain ⟨e1, e2, e3, e4⟩ : _ ∧ _ ∧ _ ∧ _ := by
            simpa only [Except.ok.injEq, Prod.mk.injEq] using hcalc
          refine ⟨?_, ?_⟩
          · rw [← e2]
            split
            · exact le_refl 0
            · exact hlb
          · rw [← e4]
            exact sub_nonneg.mpr (not_lt.mp hlt)
    case fee =>
        by_cases hlt : acct.investment_balance < amount
        · rw [if_pos hlt] at hcalc
          exact Except.noConfusion hcalc
        · rw [if_neg hlt] at hcalc
          obtain ⟨e1, e2, e3, e4⟩ : _ ∧ _ ∧ _ ∧ _ := by
            simpa only [Except.ok.injEq, Prod.mk.injEq] using hcalc
          refine ⟨?_, ?_⟩
          · rw [← e2]
            split
            · exact le_refl 0
            · exact hlb
          · rw [← e4]
            exact sub_nonneg.mpr (not_lt.mp hlt)
    case loan_disbursement =>
        by_cases hu : (uid == "organization") = true
        · rw [if_pos hu] at hcalc
          exact Except.noConfusion hcalc
        · rw [if_neg hu] at hcalc
          obtain ⟨e1, e2, e3, e4⟩ : _ ∧ _ ∧ _ ∧ _ := by
            simpa only [Except.ok.injEq, Prod.mk.injEq] using hcalc
          refine ⟨?_, ?_⟩
          · rw [← e2]
            exact add_nonneg hlb hamt
          · rw [← e4]
            exact hib
    case payment =>
        by_cases hu : (uid == "organization") = true
        · rw [if_pos hu] at hcalc
          by_cases hlt : acct.investment_balance < amount
          · rw [if_pos hlt] at hcalc
            exact Except.noConfusion hcalc
          · rw [if_neg hlt] at hcalc
            obtain ⟨e1, e2, e3, e4⟩ : _ ∧ _ ∧ _ ∧ _ := by
              simpa only [Except.ok.injEq, Prod.mk.injEq] using hcalc
            refine ⟨?_, ?_⟩
            · rw [← e2]
            · rw [← e4]
              exact sub_nonneg.mpr (not_lt.mp hlt)
        · rw [if_neg hu] at hcalc
          by_cases hlt : acct.loan_balance < amount
          · rw [if_pos hlt] at hcalc
            exact Except.noConfusion hcalc
          · rw [if_neg hlt] at hcalc
            obtain ⟨e1, e2, e3, e4⟩ : _ ∧ _ ∧ _ ∧ _ := by
              simpa only [Except.ok.injEq, Prod.mk.injEq] using hcalc
            refine ⟨?_, ?_⟩
            · rw [← e2]
              exact sub_nonneg.mpr (not_lt.mp hlt)
            · rw [← e4]
              exact hib
  · intro horg
    have hu : (uid == "organization") = true := by simpa using horg
    cases ty
    all_goals dsimp only at hcalc
    case deposit =>
        rw [if_pos hu] at hcalc
        obtain ⟨e1, e2, e3, e4⟩ : _ ∧ _ ∧ _ ∧ _ := by
          simpa only [Except.ok.injEq, Prod.mk.injEq] using hcalc
        exact e2.symm
    case interest =>
        rw [if_pos hu] at hcalc
        obtain ⟨e1, e2, e3, e4⟩ : _ ∧ _ ∧ _ ∧ _ := by
          simpa only [Except.ok.injEq, Prod.mk.injEq] using hcalc
        exact e2.symm
    case withdrawal =>
        by_cases hlt : acct.investment_balance < amount
        · rw [if_pos hlt] at hcalc
          exact Except.noConfusion hcalc
        · rw [if_neg hlt, if_pos hu] at hcalc
          obtain ⟨e1, e2, e3, e4⟩ : _ ∧ _ ∧ _ ∧ _ := by
            simpa only [Except.ok.injEq, Prod.mk.injEq] using hcalc
          exact e2.symm
    case fee =>
        by_cases hlt : acct.investment_balance < amount
        · rw [if_pos hlt] at hcalc
          exact Except.noConfusion hcalc
        · rw [if_neg hlt, if_pos hu] at hcalc
          obtain ⟨e1, e2, e3, e4⟩ : _ ∧ _ ∧ _ ∧ _ := by
            simpa only [Except.ok.injEq, Prod.mk.injEq] using hcalc
          exact e2.symm
    case loan_disbursement =>
        rw [if_pos hu] at hcalc
        exact Except.noConfusion hcalc
    case payment =>
        rw [if_pos hu] at hcalc
        by_cases hlt : acct.investment_balance < amount
        · rw [if_pos hlt] at hcalc
          exact Except.noConfusion hcalc
        · rw [if_neg hlt] at hcalc
          obtain ⟨e1, e2, e3, e4⟩ : _ ∧ _ ∧ _ ∧ _ := by
            simpa only [Except.ok.injEq, Prod.mk.injEq] using hcalc
          exact e2.symm

/-- Witness for the amended C5: an organization deposit of 250 into the
organization account (balances 0 / 100000) yields non-negative balances and
zero organization loan balance. -/
theorem C5_amended_nonnegativity_from_calculator_witness :
    ((0 : Rat) ≤ 0 ∧ (0 : Rat) ≤ 100250)
    ∧ ("organization" = "organization" → (0 : Rat) = 0)
    ∧ (∀ (l i : Rat) (a : Account),
        AccountDB.get_account_by_id stateBase "acct-org" = some a →
        AccountDB.get_account_by_id
            (AccountDB.update_account_balances stateBase "acct-org" (some l) (some i))
            "acct-org"
          = some { a with loan_balance := l, investment_balance := i }) :=
  C5_amended_nonnegativity_from_calculator stateBase "acct-org" .deposit 250
    "organization" acctOrg 0 0 100000 100250
    (by decide) (by decide) (by decide) (by decide) (by decide)

theorem update_account_balances_idem (s : DBState) (aid : String) (l i : Rat) :
    AccountDB.update_account_balances
        (AccountDB.update_account_balances s aid (some l) (some i)) aid (some l) (some i)
      = AccountDB.update_account_balances s aid (some l) (some i) := by
  simp only [AccountDB.update_account_balances, List.map_map]
  congr 1
  apply List.map_congr_left
  intro a ha
  by_cases h : a.id = aid <;> simp [Function.comp, h]

theorem mark_transaction_failed_idem (s : DBState) (tid : Nat) (m : String) :
    TransactionDB.mark_transaction_failed
        (TransactionDB.mark_transaction_failed s tid m) tid m
      = TransactionDB.mark_transaction_failed s tid m := by
  simp only [TransactionDB.mark_transaction_failed, List.map_map]
  congr 1
  apply List.map_congr_left
  intro a ha
  by_cases h : a.id = tid <;> simp [Function.comp, h]

theorem update_mark_failed_comm (s : DBState) (tid : Nat) (m : String)
    (aid : String) (l i : Option Rat) :
    AccountDB.update_account_balances
        (TransactionDB.mark_transaction_failed s tid m) aid l i
      = TransactionDB.mark_transaction_failed
        (AccountDB.update_account_balances s aid l i) tid m := rfl

/-- C6: `revert_transaction_balances` is idempotent.  For a transaction
carrying recorded before-balances, running the revert twice produces exactly
the same store as running it once (in particular the same account
balances); after the first revert the transaction is already `failed`, so
the second call — a revert of an already-failed transaction — is a no-op on
the accounts. -/
theorem C6_revert_transaction_idempotent (s : DBState) (tid : Nat)
    (t : Transaction) (lb ib : Rat)
    (hget : TransactionDB.get_transaction_by_id s tid = some t)
    (hlb : t.loan_balance_before = some lb)
    (hib : t.invested_balance_before = some ib) :
    BalanceService.revert_transaction_balances
        (BalanceService.revert_transaction_balances s tid).1 tid
      = BalanceService.revert_transaction_balances s tid
    ∧ (BalanceService.revert_transaction_balances
        (BalanceService.revert_transaction_balances s tid).1 tid).1.accounts
      = (BalanceService.revert_transaction_balances s tid).1.accounts
    ∧ (∃ t' : Transaction,
        TransactionDB.get_transaction_by_id
          (BalanceService.revert_transaction_balances s tid).1 tid = some t'
        ∧ t'.status = .failed) := by
  have hrev1 := revert_eq_of_snapshot s tid t lb ib hget hlb hib
  have hbase : TransactionDB.get_transaction_by_id
      (BalanceService.update_account_balances s t.account_id lb ib) tid = some t := hget
  have hrec1 := getTxn_self_of_map
    (BalanceService.update_account_balances s t.account_id lb ib) _ tid t _
    (getTxn_mark_failed (BalanceService.update_account_balances s t.account_id lb ib)
      tid tid "Reverted due to Crossmint failure") hbase
  have hrev2 := revert_eq_of_snapshot
    (TransactionDB.mark_transaction_failed
      (BalanceService.update_account_balances s t.account_id lb ib) tid
      "Reverted due to Crossmint failure") tid
    { t with status := .failed
             failure_reason := some "Reverted due to Crossmint failure" }
    lb ib hrec1 hlb hib
  have hmain : BalanceService.revert_transaction_balances
      (BalanceService.revert_transaction_balances s tid).1 tid
      = BalanceService.revert_transaction_balances s tid := by
    rw [hrev1]
    show BalanceService.revert_transaction_balances
      (TransactionDB.mark_transaction_failed
        (BalanceService.update_account_balances s t.account_id lb ib) tid
        "Reverted due to Crossmint failure") tid
      = (TransactionDB.mark_transaction_failed
          (BalanceService.update_account_balances s t.account_id lb ib) tid
          "Reverted due to Crossmint failure", Except.ok (lb, ib))
    rw [hrev2]
    show (TransactionDB.mark_transaction_failed
      (AccountDB.update_account_balances
        (TransactionDB.mark_transaction_failed
          (AccountDB.update_account_balances s t.account_id (some lb) (some ib)) tid
          "Reverted due to Crossmint failure")
        t.account_id (some lb) (some ib)) tid
      "Reverted due to Crossmint failure", Except.ok (lb, ib))
      = (TransactionDB.mark_transaction_failed
          (AccountDB.update_account_balances s t.account_id (some lb) (some ib)) tid
          "Reverted due to Crossmint failure", Except.ok (lb, ib))
    rw [update_mark_failed_comm, update_account_balances_idem,
      mark_transaction_failed_idem]
  refine ⟨hmain, by rw [hmain], ?_⟩
  have hrecF : TransactionDB.get_transaction_by_id
      (BalanceService.revert_transaction_balances s tid).1 tid
      = some { t with status := .failed
                      failure_reason := some "Reverted due to Crossmint failure" } := by
    rw [hrev1]
    exact hrec1
  exact ⟨_, hrecF, rfl⟩

def txnRevC6 : Transaction :=
  { id := 0, account_id := "acct-user", user_id := "u1"
    transaction_type := .payment, status := .completed, amount := 100
    reference_number := none, collateral_id := none
    loan_balance_before := some 100, loan_balance_after := some 0
    invested_balance_before := some 500, invested_balance_after := some 500
    failure_reason := none }

def stateC6 : DBState :=
  { accounts := [acctU, acctOrg], transactions := [txnRevC6]
    collaterals := [], users := ["u1", "organization"], nextTxnId := 1 }

theorem C6_revert_transaction_idempotent_witness :
    (TransactionDB.get_transaction_by_id stateC6 0 = some txnRevC6
      ∧ txnRevC6.loan_balance_before = some 100
      ∧ txnRevC6.invested_balance_before = some 500)
    ∧ (BalanceService.revert_transaction_balances
        (BalanceService.revert_transaction_balances stateC6 0).1 0
        = BalanceService.revert_transaction_balances stateC6 0
      ∧ (BalanceService.revert_transaction_balances
          (BalanceService.revert_transaction_balances stateC6 0).1 0).1.accounts
        = (BalanceService.revert_transaction_balances stateC6 0).1.accounts
      ∧ (∃ t' : Transaction,
          TransactionDB.get_transaction_by_id
            (BalanceService.revert_transaction_balances stateC6 0).1 0 = some t'
          ∧ t'.status = .failed)) :=
  ⟨⟨by decide, by decide, by decide⟩,
   C6_revert_transaction_idempotent stateC6 0 txnRevC6 100 500
     (by decide) (by decide) (by decide)⟩

def txnFailedC7 : Transaction :=
  { txnDeposit with status := .failed, failure_reason := some "earlier failure" }

def stateC7 : DBState :=
  { accounts := [acctU, acctOrg], transactions := [txnFailedC7]
    collaterals := [], users := ["u1", "organization"], nextTxnId := 1 }

/-- C7 counterexample: the transaction store enforces no state machine.
`mark_transaction_completed` on a transaction that is already `failed`
succeeds and rewrites its status to `completed` — the claimed
`InvalidStateTransition` rejection does not exist anywhere in the code
(`db/transaction.py` lines 310–342 are unconditional UPDATEs), so the
illegal transition `failed → completed` goes through. -/
theorem C7_counterexample_failed_to_completed_allowed :
    txnFailedC7.status = .failed
    ∧ TransactionDB.get_transaction_by_id
        (TransactionDB.mark_transaction_completed stateC7 0) 0
      = some { txnFailedC7 with status := .completed } := by
  exact ⟨rfl, by decide⟩

/-- C7 amended: `mark_transaction_completed` and `mark_transaction_failed`
update the named transaction unconditionally, whatever its current status:
completing sets `status := completed` (leaving the failure reason as it
was), failing sets `status := failed` and stores the given reason.  No
transition is ever rejected, no `InvalidStateTransition` error exists, and
no code path writes the status `reversed`. -/
theorem C7_amended_status_updates_unconditional (s : DBState) (tid : Nat)
    (t : Transaction) (m : String)
    (hget : TransactionDB.get_transaction_by_id s tid = some t) :
    TransactionDB.get_transaction_by_id
        (TransactionDB.mark_transaction_completed s tid) tid
      = some { t with status := .completed }
    ∧ TransactionDB.get_transaction_by_id
        (TransactionDB.mark_transaction_failed s tid m) tid
      = some { t with status := .failed, failure_reason := some m } := by
  constructor
  · exact getTxn_self_of_map s _ tid t _ (getTxn_mark_completed s tid tid) hget
  · exact getTxn_self_of_map s _ tid t _ (getTxn_mark_failed s tid tid m) hget

theorem C7_amended_status_updates_unconditional_witness :
    TransactionDB.get_transaction_by_id stateC7 0 = some txnFailedC7
    ∧ (TransactionDB.get_transaction_by_id
        (TransactionDB.mark_transaction_completed stateC7 0) 0
      = some { txnFailedC7 with status := .completed }
    ∧ TransactionDB.get_transaction_by_id
        (TransactionDB.mark_transaction_failed stateC7 0 "boom") 0
      = some { txnFailedC7 with status := .failed, failure_reason := some "boom" }) :=
  ⟨by decide,
   C7_amended_status_updates_unconditional stateC7 0 txnFailedC7 "boom" (by decide)⟩

theorem find?_map_guard {α : Type} (p : α → Bool) (g : α → α) (l : List α) (a : α)
    (h : l.find? p = some a) (hg : ∀ b, p b = true → p (g b) = true) :
    (l.map fun x => if p x then g x else x).find? p = some (g a) := by
  induction l with
  | nil => simp [List.find?] at h
  | cons b l ih =>
      simp only [List.find?_cons] at h
      simp only [List.map_cons, List.find?_cons]
      cases hb : p b
      · simp only [hb, Bool.false_eq_true, if_false] at h ⊢
        exact ih h
      · simp only [hb, if_true] at h ⊢
        simp only [hg b hb]
        cases h
        rfl

def collC8 : Collateral :=
  { id := "coll-1", user_id := "u1", status := .pending
    loan_amount := 0, loan_limit := 7000, due_date := 100 }

def stateC8 : DBState :=
  { accounts := [acctU, acctOrg], transactions := [], collaterals := [collC8]
    users := ["u1", "organization"], nextTxnId := 5 }

/-- C8 counterexample: approving a pending collateral at exactly its limit
succeeds, but the owner's loan balance does not become the loan amount —
`CollateralDB.approve_collateral` creates the `loan_disbursement`
transaction directly in the store and never invokes the Balance Service,
so the transaction stays `pending` and no account balance changes:
`acctU.loan_balance` stays `100` instead of the claimed `7000`. -/
theorem C8_counterexample_approve_never_disburses :
    (CollateralDB.approve_collateral stateC8 "coll-1" 7000).2.isOk = true
    ∧ (AccountDB.get_account_by_user_id
        (CollateralDB.approve_collateral stateC8 "coll-1" 7000).1 "u1").map
        Account.loan_balance = some 100
    ∧ ¬ ((AccountDB.get_account_by_user_id
        (CollateralDB.approve_collateral stateC8 "coll-1" 7000).1 "u1").map
        Account.loan_balance = some 7000)
    ∧ (TransactionDB.get_transaction_by_id
        (CollateralDB.approve_collateral stateC8 "coll-1" 7000).1 5).map
        Transaction.status = some .pending := by
  refine ⟨by decide, by decide, by decide, by decide⟩

/-- C8 amended: `approve_collateral` on a pending collateral rejects any
loan amount above the limit with an "exceeds limit" error and an unchanged
store; at or below the limit it succeeds, returning the collateral with
`status = approved` and the stored `loan_amount`, and records a
`loan_disbursement` transaction referencing `LOAN-` plus the collateral id —
but that transaction is created directly in the transaction store with
status `pending` and the Balance Service is never called, so the accounts
(in particular the owner's loan balance) are exactly those of the input
store. -/
theorem C8_amended_approve_without_balance_service (s : DBState) (cid : String)
    (amt : Rat) (c : Collateral) (ua : Account)
    (hfresh : TxnIdsFresh s)
    (hc : CollateralDB.get_collateral_by_id s cid = some c)
    (hst : c.status = .pending)
    (hua : AccountDB.get_account_by_user_id s c.user_id = some ua)
    (hlim : ¬ c.loan_limit < amt) :
    (∀ amt2 : Rat, c.loan_limit < amt2 →
      CollateralDB.approve_collateral s cid amt2
        = (s, .error ("Loan amount " ++ toString amt2 ++ " exceeds limit "
            ++ toString c.loan_limit)))
    ∧ (CollateralDB.approve_collateral s cid amt).2
        = .ok { c with status := .approved, loan_amount := amt }
    ∧ (CollateralDB.approve_collateral s cid amt).1.accounts = s.accounts
    ∧ TransactionDB.get_transaction_by_id
        (CollateralDB.approve_collateral s cid amt).1 s.nextTxnId
      = some { id := s.nextTxnId, account_id := ua.id, user_id := c.user_id
               transaction_type := .loan_disbursement, status := .pending
               amount := amt
               reference_number := some ("LOAN-" ++ cid.take 8)
               collateral_id := some cid
               loan_balance_before := none, loan_balance_after := none
               invested_balance_before := none, invested_balance_after := none
               failure_reason := none } := by
  have hstne : (c.status != CollateralStatus.pending) = false := by
    rw [hst]; rfl
  have hguard : ∀ amt2 : Rat, c.loan_limit < amt2 →
      CollateralDB.approve_collateral s cid amt2
        = (s, .error ("Loan amount " ++ toString amt2 ++ " exceeds limit "
            ++ toString c.loan_limit)) := by
    intro amt2 h2
    simp only [CollateralDB.approve_collateral, hc, hstne, Bool.false_eq_true,
      if_false, if_pos h2]
  have hcoll1 : CollateralDB.get_collateral_by_id
      { s with collaterals := s.collaterals.map fun x =>
          if x.id == cid then { x with status := CollateralStatus.approved
                                       loan_amount := amt } else x } cid
      = some { c with status := .approved, loan_amount := amt } := by
    have hc2 : s.collaterals.find? (fun x => x.id == cid) = some c := hc
    show (s.collaterals.map fun x =>
        if x.id == cid then { x with status := CollateralStatus.approved
                                     loan_amount := amt } else x).find?
        (fun x => x.id == cid)
      = some { c with status := .approved, loan_amount := amt }
    exact find?_map_guard (fun x => x.id == cid)
      (fun x => { x with status := CollateralStatus.approved, loan_amount := amt })
      s.collaterals c hc2 (fun b hb => hb)
  have happ : CollateralDB.approve_collateral s cid amt
      = ((TransactionDB.create_transaction
            { s with collaterals := s.collaterals.map fun x =>
                if x.id == cid then { x with status := CollateralStatus.approved
                                             loan_amount := amt } else x }
            { account_id := ua.id, user_id := c.user_id
              transaction_type := .loan_disbursement, amount := amt
              reference_number := some ("LOAN-" ++ cid.take 8)
              collateral_id := some cid }).1,
          .ok { c with status := .approved, loan_amount := amt }) := by
    simp only [CollateralDB.approve_collateral, hc, hstne, Bool.false_eq_true,
      if_false, if_neg hlim]
    rw [show AccountDB.get_account_by_user_id
        { s with collaterals := s.collaterals.map fun x =>
            if x.id == cid then { x with status := CollateralStatus.approved
                                         loan_amount := amt } else x } c.user_id
        = some ua from hua]
    dsimp only
    rw [show CollateralDB.get_collateral_by_id
        (TransactionDB.create_transaction
          { s with collaterals := s.collaterals.map fun x =>
              if x.id == cid then { x with status := CollateralStatus.approved
                                           loan_amount := amt } else x }
          { account_id := ua.id, user_id := c.user_id
            transaction_type := .loan_disbursement, amount := amt
            reference_number := some ("LOAN-" ++ cid.take 8)
            collateral_id := some cid }).1 cid
        = some { c with status := .approved, loan_amount := amt } from hcoll1]
  refine ⟨hguard, ?_, ?_, ?_⟩
  · rw [happ]
  · rw [happ]
    rfl
  · rw [happ]
    have hfresh1 : TxnIdsFresh
        { s with collaterals := s.collaterals.map fun x =>
            if x.id == cid then { x with status := CollateralStatus.approved
                                         loan_amount := amt } else x } := hfresh
    exact getTxn_create_new _ _ hfresh1
  
theorem C8_amended_approve_without_balance_service_witness :
    (TxnIdsFresh stateC8
      ∧ CollateralDB.get_collateral_by_id stateC8 "coll-1" = some collC8
      ∧ collC8.status = .pending
      ∧ AccountDB.get_account_by_user_id stateC8 collC8.user_id = some acctU
      ∧ ¬ collC8.loan_limit < (7000 : Rat))
    ∧ CollateralDB.approve_collateral stateC8 "coll-1" 8000
        = (stateC8, .error ("Loan amount " ++ toString (8000 : Rat)
            ++ " exceeds limit " ++ toString collC8.loan_limit))
    ∧ (CollateralDB.approve_collateral stateC8 "coll-1" 7000).2
        = .ok { collC8 with status := .approved, loan_amount := 7000 }
    ∧ (CollateralDB.approve_collateral stateC8 "coll-1" 7000).1.accounts
        = stateC8.accounts
    ∧ TransactionDB.get_transaction_by_id
        (CollateralDB.approve_collateral stateC8 "coll-1" 7000).1 stateC8.nextTxnId
      = some { id := stateC8.nextTxnId, account_id := acctU.id
               user_id := collC8.user_id
               transaction_type := .loan_disbursement, status := .pending
               amount := 7000
               reference_number := some ("LOAN-" ++ "coll-1".take 8)
               collateral_id := some "coll-1"
               loan_balance_before := none, loan_balance_after := none
               invested_balance_before := none, invested_balance_after := none
               failure_reason := none } :=
  ⟨⟨by decide, by decide, by decide, by decide, by decide⟩,
   (C8_amended_approve_without_balance_service stateC8 "coll-1" 7000 collC8 acctU
     (by decide) (by decide) (by decide) (by decide) (by decide)).1 8000 (by decide),
   (C8_amended_approve_without_balance_service stateC8 "coll-1" 7000 collC8 acctU
     (by decide) (by decide) (by decide) (by decide) (by decide)).2.1,
   (C8_amended_approve_without_balance_service stateC8 "coll-1" 7000 collC8 acctU
     (by decide) (by decide) (by decide) (by decide) (by decide)).2.2.1,
   (C8_amended_approve_without_balance_service stateC8 "coll-1" 7000 collC8 acctU
     (by decide) (by decide) (by decide) (by decide) (by decide)).2.2.2⟩

def collC9 : Collateral :=
  { id := "coll-9", user_id := "u1", status := .approved
    loan_amount := 7000, loan_limit := 7000, due_date := 100 }

def stateC9 : DBState :=
  { accounts := [acctU, acctOrg], transactions := [], collaterals := [collC9]
    users := ["u1", "organization"], nextTxnId := 5 }

def ereqC9 : ExtendLoanRequest :=
  { account_id := "acct-user", user_id := "u1", collateral_id := "coll-9"
    extension_days := 30, fee := 50, reference_number := none }

/-- C9 counterexample: extending an approved loan by 30 days succeeds, but
the collateral's `due_date` is not moved — `extend_loan` never writes
`due_date`; `extension_days` only reaches the created transaction's
metadata, so the due date stays `100` instead of the claimed `130`. -/
theorem C9_counterexample_due_date_never_extended :
    (Routes.extend_loan stateC9 ereqC9).2.isOk = true
    ∧ (CollateralDB.get_collateral_by_id
        (Routes.extend_loan stateC9 ereqC9).1 "coll-9").map Collateral.due_date
      = some 100
    ∧ ¬ ((CollateralDB.get_collateral_by_id
        (Routes.extend_loan stateC9 ereqC9).1 "coll-9").map Collateral.due_date
      = some (100 + 30)) := by
  refine ⟨by decide, by decide, by decide⟩

/-- C9 amended: `extend_loan` requires an `approved` collateral, failing
with a 400 and an unchanged store otherwise.  On success it creates a `fee`
transaction (returned still `pending`), completes it in the store with a
balance snapshot, adds the fee directly to the account's loan balance
(bypassing the Balance Service), and adds the fee to the collateral's
`loan_amount` — but the collateral's `due_date` is never changed: the
requested `extension_days` is not applied to anything persistent. -/
theorem C9_amended_extend_leaves_due_date (s : DBState) (r : ExtendLoanRequest)
    (c : Collateral) (a : Account)
    (hfresh : TxnIdsFresh s)
    (hc : CollateralDB.get_collateral_by_id s r.collateral_id = some c)
    (hacct : AccountDB.get_account_by_id s r.account_id = some a)
    (huser : UserDB.get_user_by_id s r.user_id = some r.user_id) :
    (c.status ≠ .approved →
      Routes.extend_loan s r = (s, .error ⟨400, "Collateral is not approved"⟩))
    ∧ (c.status = .approved →
      (Routes.extend_loan s r).2
        = .ok { id := s.nextTxnId, account_id := r.account_id
                user_id := r.user_id
                transaction_type := .fee, status := .pending, amount := r.fee
                reference_number := r.reference_number
                collateral_id := some r.collateral_id
                loan_balance_before := none, loan_balance_after := none
                invested_balance_before := none, invested_balance_after := none
                failure_reason := none }
      ∧ TransactionDB.get_transaction_by_id
          (Routes.extend_loan s r).1 s.nextTxnId
        = some { id := s.nextTxnId, account_id := r.account_id
                 user_id := r.user_id
                 transaction_type := .fee, status := .completed, amount := r.fee
                 reference_number := r.reference_number
                 collateral_id := some r.collateral_id
                 loan_balance_before := some a.loan_balance
                 loan_balance_after := some (a.loan_balance + r.fee)
                 invested_balance_before := some a.investment_balance
                 invested_balance_after := some a.investment_balance
                 failure_reason := none }
      ∧ AccountDB.get_account_by_id (Routes.extend_loan s r).1 r.account_id
        = some { a with loan_balance := a.loan_balance + r.fee }
      ∧ CollateralDB.get_collateral_by_id (Routes.extend_loan s r).1 r.collateral_id
        = some { c with loan_amount := c.loan_amount + r.fee }
      ∧ (CollateralDB.get_collateral_by_id
          (Routes.extend_loan s r).1 r.collateral_id).map Collateral.due_date
        = some c.due_date) := by
  constructor
  · intro hne
    have hstt : (c.status != CollateralStatus.approved) = true := bne_iff_ne.mpr hne
    simp only [Routes.extend_loan, hc, hstt, if_true]
  · intro hst
    have hstf : (c.status != CollateralStatus.approved) = false := by
      rw [hst]; rfl
    have happ : Routes.extend_loan s r
        = (CollateralDB.update_loan_amount
            (TransactionDB.mark_transaction_completed
              (TransactionDB.update_transaction_balances
                (AccountDB.update_account_balances
                  (TransactionDB.create_transaction s
                    { account_id := r.account_id, user_id := r.user_id
                      transaction_type := .fee, amount := r.fee
                      reference_number := r.reference_number
                      collateral_id := some r.collateral_id }).1
                  r.account_id
                  (some (a.loan_balance + r.fee)) (some a.investment_balance))
                s.nextTxnId (some a.loan_balance) (some (a.loan_balance + r.fee))
                (some a.investment_balance) (some a.investment_balance))
              s.nextTxnId)
            r.collateral_id (c.loan_amount + r.fee),
          .ok (TransactionDB.create_transaction s
            { account_id := r.account_id, user_id := r.user_id
              transaction_type := .fee, amount := r.fee
              reference_number := r.reference_number
              collateral_id := some r.collateral_id }).2) := by
      simp only [Routes.extend_loan, hc, hstf, Bool.false_eq_true, if_false,
        hacct, huser, getAcct_create]
      rfl
    have hbase : TransactionDB.get_transaction_by_id
        (AccountDB.update_account_balances
          (TransactionDB.create_transaction s
            { account_id := r.account_id, user_id := r.user_id
              transaction_type := .fee, amount := r.fee
              reference_number := r.reference_number
              collateral_id := some r.collateral_id }).1
          r.account_id
          (some (a.loan_balance + r.fee)) (some a.investment_balance))
        s.nextTxnId
        = some (TransactionDB.create_transaction s
            { account_id := r.account_id, user_id := r.user_id
              transaction_type := .fee, amount := r.fee
              reference_number := r.reference_number
              collateral_id := some r.collateral_id }).2 := by
      rw [getTxn_update_account_balances]
      exact getTxn_create_new s _ hfresh
    have hsnap := getTxn_self_of_map _ _ s.nextTxnId _ _
      (getTxn_update_transaction_balances
        (AccountDB.update_account_balances
          (TransactionDB.create_transaction s
            { account_id := r.account_id, user_id := r.user_id
              transaction_type := .fee, amount := r.fee
              reference_number := r.reference_number
              collateral_id := some r.collateral_id }).1
          r.account_id
          (some (a.loan_balance + r.fee)) (some a.investment_balance))
        s.nextTxnId s.nextTxnId
        (some a.loan_balance) (some (a.loan_balance + r.fee))
        (some a.investment_balance) (some a.investment_balance)) hbase
    have hdone := getTxn_self_of_map _ _ s.nextTxnId _ _
      (getTxn_mark_completed
        (TransactionDB.update_transaction_balances
          (AccountDB.update_account_balances
            (TransactionDB.create_transaction s
              { account_id := r.account_id, user_id := r.user_id
                transaction_type := .fee, amount := r.fee
                reference_number := r.reference_number
                collateral_id := some r.collateral_id }).1
            r.account_id
            (some (a.loan_balance + r.fee)) (some a.investment_balance))
          s.nextTxnId (some a.loan_balance) (some (a.loan_balance + r.fee))
          (some a.investment_balance) (some a.investment_balance))
        s.nextTxnId s.nextTxnId) hsnap
    have hcoll : CollateralDB.get_collateral_by_id
        (Routes.extend_loan s r).1 r.collateral_id
        = some { c with loan_amount := c.loan_amount + r.fee } := by
      rw [happ]
      have hc2 : s.collaterals.find? (fun x => x.id == r.collateral_id) = some c := hc
      show (s.collaterals.map fun x =>
          if x.id == r.collateral_id then
            { x with loan_amount := c.loan_amount + r.fee } else x).find?
          (fun x => x.id == r.collateral_id)
        = some { c with loan_amount := c.loan_amount + r.fee }
      exact find?_map_guard (fun x => x.id == r.collateral_id)
        (fun x => { x with loan_amount := c.loan_amount + r.fee })
        s.collaterals c hc2 (fun b hb => hb)
    refine ⟨?_, ?_, ?_, hcoll, ?_⟩
    · rw [happ]
      rfl
    · rw [happ]
      show TransactionDB.get_transaction_by_id
        (TransactionDB.mark_transaction_completed
          (TransactionDB.update_transaction_balances
            (AccountDB.update_account_balances
              (TransactionDB.create_transaction s
                { account_id := r.account_id, user_id := r.user_id
                  transaction_type := .fee, amount := r.fee
                  reference_number := r.reference_number
                  collateral_id := some r.collateral_id }).1
              r.account_id
              (some (a.loan_balance + r.fee)) (some a.investment_balance))
            s.nextTxnId (some a.loan_balance) (some (a.loan_balance + r.fee))
            (some a.investment_balance) (some a.investment_balance))
          s.nextTxnId) s.nextTxnId = _
      exact hdone
    · rw [happ]
      show AccountDB.get_account_by_id
        (AccountDB.update_account_balances
          (TransactionDB.create_transaction s
            { account_id := r.account_id, user_id := r.user_id
              transaction_type := .fee, amount := r.fee
              reference_number := r.reference_number
              collateral_id := some r.collateral_id }).1
          r.account_id
          (some (a.loan_balance + r.fee)) (some a.investment_balance))
        r.account_id = _
      exact getAcct_update_self _ r.account_id _ _ a hacct
    · rw [hcoll]
      rfl

def ereqC8r : ExtendLoanRequest :=
  { account_id := "acct-user", user_id := "u1", collateral_id := "coll-1"
    extension_days := 30, fee := 50, reference_number := none }

theorem C9_amended_extend_leaves_due_date_witness :
    (TxnIdsFresh stateC9
      ∧ CollateralDB.get_collateral_by_id stateC9 ereqC9.collateral_id = some collC9
      ∧ AccountDB.get_account_by_id stateC9 ereqC9.account_id = some acctU
      ∧ UserDB.get_user_by_id stateC9 ereqC9.user_id = some ereqC9.user_id
      ∧ collC9.status = .approved ∧ collC8.status ≠ .approved)
    ∧ ((Routes.extend_loan stateC9 ereqC9).2
        = .ok { id := stateC9.nextTxnId, account_id := ereqC9.account_id
                user_id := ereqC9.user_id
                transaction_type := .fee, status := .pending
                amount := ereqC9.fee
                reference_number := ereqC9.reference_number
                collateral_id := some ereqC9.collateral_id
                loan_balance_before := none, loan_balance_after := none
                invested_balance_before := none, invested_balance_after := none
                failure_reason := none }
      ∧ TransactionDB.get_transaction_by_id
          (Routes.extend_loan stateC9 ereqC9).1 stateC9.nextTxnId
        = some { id := stateC9.nextTxnId, account_id := ereqC9.account_id
                 user_id := ereqC9.user_id
                 transaction_type := .fee, status := .completed
                 amount := ereqC9.fee
                 reference_number := ereqC9.reference_number
                 collateral_id := some ereqC9.collateral_id
                 loan_balance_before := some acctU.loan_balance
                 loan_balance_after := some (acctU.loan_balance + ereqC9.fee)
                 invested_balance_before := some acctU.investment_balance
                 invested_balance_after := some acctU.investment_balance
                 failure_reason := none }
      ∧ AccountDB.get_account_by_id
          (Routes.extend_loan stateC9 ereqC9).1 ereqC9.account_id
        = some { acctU with loan_balance := acctU.loan_balance + ereqC9.fee }
      ∧ CollateralDB.get_collateral_by_id
          (Routes.extend_loan stateC9 ereqC9).1 ereqC9.collateral_id
        = some { collC9 with loan_amount := collC9.loan_amount + ereqC9.fee }
      ∧ (CollateralDB.get_collateral_by_id
          (Routes.extend_loan stateC9 ereqC9).1 ereqC9.collateral_id).map
          Collateral.due_date
        = some collC9.due_date)
    ∧ Routes.extend_loan stateC8 ereqC8r
        = (stateC8, .error ⟨400, "Collateral is not approved"⟩) :=
  ⟨⟨by decide, by decide, by decide, by decide, by decide, by decide⟩,
   (C9_amended_extend_leaves_due_date stateC9 ereqC9 collC9 acctU
     (by decide) (by decide) (by decide) (by decide)).2 (by decide),
   (C9_amended_extend_leaves_due_date stateC8 ereqC8r collC8 acctU
     (by decide) (by decide) (by decide) (by decide)).1 (by decide)⟩

theorem process_succ_guard_true (f : Nat) (s : DBState) (tid : Nat)
    (t : Transaction) (lb la ib ia : Rat)
    (hget : TransactionDB.get_transaction_by_id s tid = some t)
    (hcalc : BalanceService.calculate_balances_for_transaction s
      t.account_id t.transaction_type t.amount t.user_id = .ok (lb, la, ib, ia))
    (hguard : (BalanceService.mirrored_transaction_types.contains t.transaction_type
        && t.user_id != "organization") = true) :
    BalanceService.process_transaction_balances (f + 1) s tid
      = ((BalanceService.create_opposite_core
          (fun a b => BalanceService.process_transaction_balances f a b)
          (TransactionDB.mark_transaction_completed
            (BalanceService.update_account_balances
              (TransactionDB.update_transaction_balances s tid
                (some lb) (some la) (some ib) (some ia)) t.account_id la ia) tid)
          tid t.account_id t.user_id t.transaction_type t.amount t.collateral_id).1,
         .ok ⟨lb, la, ib, ia⟩) := by
  simp only [BalanceService.process_transaction_balances, hget, hcalc, hguard,
    if_true]

/-- C10: a failure while creating or processing the mirrored organization
transaction is swallowed by `process_transaction_balances`: whatever the
mirror step does, the caller receives the user's success result and the
user's transaction stays completed with its snapshot in place.  Concretely,
when no organization account exists the mirror step raises and the run
still ends in the user-only state with an `ok` result; and when the mirror
is created but its processing raises (for example the organization balance
is insufficient), the mirror is marked failed with the error message and
the overall result is still `ok` — the error is logged into the mirror row,
never propagated. -/
theorem C10_mirror_failure_swallowed (s : DBState) (tid : Nat) (t : Transaction)
    (lb la ib ia : Rat)
    (hfresh : TxnIdsFresh s)
    (hget : TransactionDB.get_transaction_by_id s tid = some t)
    (hguard : (BalanceService.mirrored_transaction_types.contains t.transaction_type
        && t.user_id != "organization") = true)
    (hcalc : BalanceService.calculate_balances_for_transaction s
      t.account_id t.transaction_type t.amount t.user_id = .ok (lb, la, ib, ia)) :
    (BalanceService.processTransaction s tid).2 = .ok ⟨lb, la, ib, ia⟩
    ∧ TransactionDB.get_transaction_by_id
        (BalanceService.processTransaction s tid).1 tid
      = some { t with
          status := .completed
          loan_balance_before := some lb
          loan_balance_after := some la
          invested_balance_before := some ib
          invested_balance_after := some ia }
    ∧ (AccountDB.get_organization_account s = none →
        BalanceService.processTransaction s tid
          = (TransactionDB.mark_transaction_completed
              (BalanceService.update_account_balances
                (TransactionDB.update_transaction_balances s tid
                  (some lb) (some la) (some ib) (some ia)) t.account_id la ia) tid,
             .ok ⟨lb, la, ib, ia⟩)
        ∧ (BalanceService.processTransaction s tid).1.transactions.length
          = s.transactions.length)
    ∧ (∀ (org : Account) (s2 : DBState) (e : BalanceError),
        AccountDB.get_organization_account
          (TransactionDB.mark_transaction_completed
            (BalanceService.update_account_balances
              (TransactionDB.update_transaction_balances s tid
                (some lb) (some la) (some ib) (some ia)) t.account_id la ia) tid)
          = some org →
        BalanceService.process_transaction_balances 1
          (TransactionDB.create_transaction
            (TransactionDB.mark_transaction_completed
              (BalanceService.update_account_balances
                (TransactionDB.update_transaction_balances s tid
                  (some lb) (some la) (some ib) (some ia)) t.account_id la ia) tid)
            (BalanceService.opposite_transaction_data org tid t.transaction_type
              t.amount t.collateral_id)).1
          (TransactionDB.create_transaction
            (TransactionDB.mark_transaction_completed
              (BalanceService.update_account_balances
                (TransactionDB.update_transaction_balances s tid
                  (some lb) (some la) (some ib) (some ia)) t.account_id la ia) tid)
            (BalanceService.opposite_transaction_data org tid t.transaction_type
              t.amount t.collateral_id)).2.id = (s2, .error e) →
        BalanceService.processTransaction s tid
          = (TransactionDB.mark_transaction_failed s2
              (TransactionDB.create_transaction
                (TransactionDB.mark_transaction_completed
                  (BalanceService.update_account_balances
                    (TransactionDB.update_transaction_balances s tid
                      (some lb) (some la) (some ib) (some ia)) t.account_id la ia) tid)
                (BalanceService.opposite_transaction_data org tid t.transaction_type
                  t.amount t.collateral_id)).2.id
              (BalanceError.toMessage e),
             .ok ⟨lb, la, ib, ia⟩)) := by
  have h2 : (BalanceService.process_transaction_balances 2 s tid).2
      = .ok ⟨lb, la, ib, ia⟩ := by
    rw [show (2 : Nat) = 1 + 1 from rfl]
    exact process_succ_ok_shape 1 s tid t lb la ib ia hget hcalc
  have hrun : BalanceService.process_transaction_balances 2 s tid
      = ((BalanceService.process_transaction_balances 2 s tid).1,
         .ok ⟨lb, la, ib, ia⟩) := by
    exact Prod.ext rfl h2
  refine ⟨h2, (process_two_ok s tid t _ _ hfresh hget hrun).2, ?_, ?_⟩
  · intro horg
    have horg3 : AccountDB.get_organization_account
        (TransactionDB.mark_transaction_completed
          (BalanceService.update_account_balances
            (TransactionDB.update_transaction_balances s tid
              (some lb) (some la) (some ib) (some ia)) t.account_id la ia) tid)
        = none := by
      show AccountDB.get_organization_account
        (AccountDB.update_account_balances
          (TransactionDB.update_transaction_balances s tid
            (some lb) (some la) (some ib) (some ia)) t.account_id (some la) (some ia))
        = none
      rw [getOrg_update_account_balances]
      rw [show AccountDB.get_organization_account
          (TransactionDB.update_transaction_balances s tid
            (some lb) (some la) (some ib) (some ia))
          = AccountDB.get_organization_account s from rfl]
      rw [horg]
      rfl
    have heq : BalanceService.processTransaction s tid
        = (TransactionDB.mark_transaction_completed
            (BalanceService.update_account_balances
              (TransactionDB.update_transaction_balances s tid
                (some lb) (some la) (some ib) (some ia)) t.account_id la ia) tid,
           .ok ⟨lb, la, ib, ia⟩) := by
      show BalanceService.process_transaction_balances (1 + 1) s tid = _
      simp only [BalanceService.process_transaction_balances, hget, hcalc,
        hguard, if_true]
      rw [createOppCore_none _ _ _ _ _ _ _ _ horg3]
    refine ⟨heq, ?_⟩
    rw [heq]
    show (TransactionDB.mark_transaction_completed
        (BalanceService.update_account_balances
          (TransactionDB.update_transaction_balances s tid
            (some lb) (some la) (some ib) (some ia)) t.account_id la ia)
        tid).transactions.length
      = s.transactions.length
    simp [TransactionDB.mark_transaction_completed,
      BalanceService.update_account_balances, AccountDB.update_account_balances,
      TransactionDB.update_transaction_balances]
  · intro org s2 e horg hproc
    show BalanceService.process_transaction_balances (1 + 1) s tid = _
    rw [process_succ_guard_true 1 s tid t lb la ib ia hget hcalc hguard]
    rw [createOppCore_some _ _ _ _ _ _ _ _ org horg]
    rw [hproc]

def stateC10 : DBState :=
  { accounts := [acctU], transactions := [txnDeposit]
    collaterals := [], users := ["u1"], nextTxnId := 1 }

def acctOrgPoor : Account :=
  { id := "acct-org", user_id := "organization", account_number := "ORG-0001"
    loan_balance := 0, investment_balance := 0 }

def txnWd100 : Transaction :=
  { id := 0, account_id := "acct-user", user_id := "u1"
    transaction_type := .withdrawal, status := .pending, amount := 100
    reference_number := none, collateral_id := none
    loan_balance_before := none, loan_balance_after := none
    invested_balance_before := none, invested_balance_after := none
    failure_reason := none }

def stateC10b : DBState :=
  { accounts := [acctU, acctOrgPoor], transactions := [txnWd100]
    collaterals := [], users := ["u1", "organization"], nextTxnId := 1 }

theorem C10_mirror_failure_swallowed_witness :
    (TxnIdsFresh stateC10
      ∧ TransactionDB.get_transaction_by_id stateC10 0 = some txnDeposit
      ∧ (BalanceService.mirrored_transaction_types.contains
            txnDeposit.transaction_type
          && txnDeposit.user_id != "organization") = true
      ∧ BalanceService.calculate_balances_for_transaction stateC10
          txnDeposit.account_id txnDeposit.transaction_type txnDeposit.amount
          txnDeposit.user_id = .ok (100, 100, 500, 750)
      ∧ AccountDB.get_organization_account stateC10 = none)
    ∧ (BalanceService.processTransaction stateC10 0).2 = .ok ⟨100, 100, 500, 750⟩
    ∧ TransactionDB.get_transaction_by_id
        (BalanceService.processTransaction stateC10 0).1 0
      = some { txnDeposit with
          status := .completed
          loan_balance_before := some 100
          loan_balance_after := some 100
          invested_balance_before := some 500
          invested_balance_after := some 750 }
    ∧ (BalanceService.processTransaction stateC10 0).1.transactions.length
      = stateC10.transactions.length
    ∧ (BalanceService.processTransaction stateC10b 0).2 = .ok ⟨100, 100, 500, 400⟩
    ∧ (TransactionDB.get_transaction_by_id
        (BalanceService.processTransaction stateC10b 0).1 1).map Transaction.status
      = some .failed :=
  ⟨⟨by decide, by decide, by decide, by decide, by decide⟩,
   (C10_mirror_failure_swallowed stateC10 0 txnDeposit 100 100 500 750
     (by decide) (by decide) (by decide) (by decide)).1,
   (C10_mirror_failure_swallowed stateC10 0 txnDeposit 100 100 500 750
     (by decide) (by decide) (by decide) (by decide)).2.1,
   ((C10_mirror_failure_swallowed stateC10 0 txnDeposit 100 100 500 750
     (by decide) (by decide) (by decide) (by decide)).2.2.1 (by decide)).2,
   (C10_mirror_failure_swallowed stateC10b 0 txnWd100 100 100 500 400
     (by decide) (by decide) (by decide) (by decide)).1,
   by decide⟩

end CV
